import Mathlib

/-! OpenWrt Terraform provider: schema tables, validators and models.

A shallow embedding of the six per-resource declaration files
(`firewall/forwarding`, `firewall/redirect`, `firewall/rule`, `firewall/zone`,
`network/bridgevlan`, `network/networkinterface`): the attribute tables with
their presence rules and validators, the model records, and the semantics of
the validators the tables attach.
-/

set_option autoImplicit false

/-! ## Regular expressions (the fragment of Go `regexp` syntax the tables use) -/

/-- One-character matchers that occur in the patterns of the tables. -/
inductive CharClass where
  /-- The class `[[:digit:]]`, that is `[0-9]`. -/
  | digit
  /-- The class `[[:xdigit:]]`, that is `[0-9A-Fa-f]`. -/
  | xdigit
  /-- The pattern `.`: any character but a newline (no `s` flag is set). -/
  | anyCharNotNL
  /-- A literal character. -/
  | lit (c : Char)
  deriving DecidableEq

/-- Does the character belong to the class. -/
def CharClass.test : CharClass → Char → Bool
  | .digit, c => decide ('0' ≤ c) && decide (c ≤ '9')
  | .xdigit, c =>
      (decide ('0' ≤ c) && decide (c ≤ '9')) ||
      (decide ('A' ≤ c) && decide (c ≤ 'F')) ||
      (decide ('a' ≤ c) && decide (c ≤ 'f'))
  | .anyCharNotNL, c => decide (c ≠ '\n')
  | .lit d, c => decide (c = d)

/-- Regular expressions: a character class, concatenation `ab`, and bounded
repetition `r{lo,hi}` (with `r{n}` as `r{n,n}`). -/
inductive RE where
  | cls (p : CharClass)
  | cat (a b : RE)
  | rep (r : RE) (lo hi : Nat)

/-- Runs `step` between `lo` and `hi` times in sequence, collecting every remainder the
repetition can leave. -/
def RE.repRun (step : List Char → List (List Char)) : Nat → Nat → List Char → List (List Char)
  | lo, 0, s => if lo = 0 then [s] else []
  | lo, hi + 1, s =>
      (if lo = 0 then [s] else []) ++ (step s).flatMap (RE.repRun step (lo - 1) hi)

/-- All the remainders `t` such that the expression matches a leading part of the input and
leaves `t`. -/
def RE.run : RE → List Char → List (List Char)
  | .cls _, [] => []
  | .cls p, c :: cs => if p.test c then [cs] else []
  | .cat a b, s => (a.run s).flatMap (fun t => b.run t)
  | .rep r lo hi, s => RE.repRun (fun t => r.run t) lo hi s

/-- A compiled pattern: a body with an optional `^` in front and an optional `$` behind. -/
structure Regexp where
  anchorStart : Bool
  body : RE
  anchorEnd : Bool

/-- Does the body match a leading part of `s`, up to the end of the text when `$` is present. -/
def Regexp.matchHere (re : Regexp) (s : List Char) : Bool :=
  (re.body.run s).any (fun t => !re.anchorEnd || t.isEmpty)

/-- Does the body match at some offset of `s`. -/
def Regexp.matchFrom (re : Regexp) : List Char → Bool
  | [] => re.matchHere []
  | c :: cs => re.matchHere (c :: cs) || re.matchFrom cs

/-- Go `(*Regexp).MatchString`: does the text contain a match of the pattern. With `^` the
match starts at the beginning of the text, with `$` (no `m` flag) it ends at its end. -/
def Regexp.MatchString (re : Regexp) (s : String) : Bool :=
  if re.anchorStart then re.matchHere s.toList else re.matchFrom s.toList

/-- The pattern `^([[:digit:]]{1,3}.){3}[[:digit:]]{1,3}$`, used by `gateway`, `ipaddr` and
`netmask`. -/
def ipv4Regexp : Regexp :=
  { anchorStart := true
    body := .cat (.rep (.cat (.rep (.cls .digit) 1 3) (.cls .anyCharNotNL)) 3 3)
                 (.rep (.cls .digit) 1 3)
    anchorEnd := true }

/-- The pattern `^([[:xdigit:]][[:xdigit:]]:){5}[[:xdigit:]][[:xdigit:]]$`, used by `macaddr`. -/
def macRegexp : Regexp :=
  { anchorStart := true
    body := .cat (.rep (.cat (.cat (.cls .xdigit) (.cls .xdigit)) (.cls (.lit ':'))) 5 5)
                 (.cat (.cls .xdigit) (.cls .xdigit))
    anchorEnd := true }

/-! ## Terraform values and configurations -/

/-- A value of the four attribute types of the schemas (`types.StringValue`,
`types.Int64Value`, `types.BoolValue`, `types.ListValue` of strings). -/
inductive Value where
  | StringValue (s : String)
  | Int64Value (i : Int)
  | BoolValue (b : Bool)
  | ListValue (xs : List String)
  deriving DecidableEq

/-- A configuration of one resource: the attributes it sets, by name. An attribute that is
not listed is null. -/
abbrev Config := List (String × Value)

/-- A null or known value of type `α`: the state of a `types.String`, `types.Int64`,
`types.Bool`, `types.List` or `types.Map` (unknown values occur only while planning and are
left out). -/
abbrev Nullable (α : Type) : Type := Option α

abbrev NullableString : Type := Nullable String
abbrev NullableInt64 : Type := Nullable Int
abbrev NullableBool : Type := Nullable Bool
abbrev NullableList : Type := Nullable (List String)
abbrev NullableMap : Type := Nullable (List (String × String))

/-- Model fields of type `types.String`. -/
abbrev types.String : Type := NullableString

/-- Model fields of type `types.Int64`. -/
abbrev types.Int64 : Type := NullableInt64

/-- Model fields of type `types.Bool`. -/
abbrev types.Bool : Type := NullableBool

/-- Model fields of type `types.List`; the schemas bind them to `ListStringSchemaAttribute`,
so the elements are strings. -/
abbrev types.List : Type := NullableList

/-- Model fields of type `types.Map`. -/
abbrev types.Map : Type := NullableMap

/-- The Go type of a model field. -/
inductive FieldType where
  | String
  | Int64
  | Bool
  | List
  | Map
  deriving DecidableEq

/-- One field of a `model` struct: its Go name, its Go type and its `tfsdk` tag. -/
structure ModelField where
  name : String
  goType : FieldType
  tfsdk : String
  deriving DecidableEq

/-! ## Validators -/

/-- A path expression; the tables only build `path.MatchRoot(name)`. -/
inductive path.Expression where
  | MatchRoot (name : String)
  deriving DecidableEq

/-- The validators the tables attach: `stringvalidator.RegexMatches`,
`stringvalidator.OneOf`, `listvalidator.SizeAtLeast`, `int64validator.Between`,
`int64validator.Any`, `listvalidator.AnyWithAllWarnings`, `lucirpcglue.AnyBool` and
`lucirpcglue.RequiresAttributeEqualString`. -/
inductive Validator where
  | RegexMatches (regexp : Regexp) (message : String)
  | OneOf (values : List String)
  | SizeAtLeast (minVal : Nat)
  | Between (minVal maxVal : Int)
  | Any (validators : List Validator)
  | AnyWithAllWarnings (validators : List Validator)
  | AnyBool (validators : List Validator)
  | RequiresAttributeEqualString (expression : path.Expression) (expected : String)

/-- Modelled from the spec: `lucirpcglue.RequiresAttributeEqualString` is not among the
sources and the spec does not describe it; the model follows its name and its arguments.
`RequiresAttributeEqualString(path.MatchRoot(a), e)` on an attribute that has a value holds
when the configuration sets the attribute `a` to the string `e`. -/
def lucirpcglue.RequiresAttributeEqualString (expression : path.Expression)
    (expected : String) (cfg : Config) : Bool :=
  match expression with
  | .MatchRoot a => cfg.lookup a == some (.StringValue expected)

/-- The verdict of `int64validator.Any` and `listvalidator.AnyWithAllWarnings`: the loop over
the given validators leaves an error only when every one of them raises one; given no
validator, none is raised. -/
def anyVerdict (noValidator someAccepts : Bool) : Bool :=
  noValidator || someAccepts

/-- Modelled from the spec: `lucirpcglue.AnyBool` is not among the sources and the spec does
not describe it; it is read as the `Any` of the validator library, for booleans. -/
def lucirpcglue.AnyBool (noValidator someAccepts : Bool) : Bool :=
  anyVerdict noValidator someAccepts

mutual
/-- Does the validator raise no error on the known value `x` of its attribute, in the
configuration `cfg`. `RegexMatches`, `OneOf`, `SizeAtLeast` and `Between` are those of
`terraform-plugin-framework-validators`. A validator meets only values of its own type (Go
typing); the other combinations are rejected here. -/
def Validator.accepts : Validator → Config → Value → Bool
  | .RegexMatches re _, _, .StringValue s => re.MatchString s
  | .RegexMatches _ _, _, _ => false
  | .OneOf values, _, .StringValue s => values.contains s
  | .OneOf _, _, _ => false
  | .SizeAtLeast n, _, .ListValue xs => decide (n ≤ xs.length)
  | .SizeAtLeast _, _, _ => false
  | .Between lo hi, _, .Int64Value i => decide (lo ≤ i) && decide (i ≤ hi)
  | .Between _ _, _, _ => false
  | .Any vs, cfg, x => anyVerdict vs.isEmpty (Validator.acceptsSome vs cfg x)
  | .AnyWithAllWarnings vs, cfg, x => anyVerdict vs.isEmpty (Validator.acceptsSome vs cfg x)
  | .AnyBool vs, cfg, x => lucirpcglue.AnyBool vs.isEmpty (Validator.acceptsSome vs cfg x)
  | .RequiresAttributeEqualString expression expected, cfg, _ =>
      lucirpcglue.RequiresAttributeEqualString expression expected cfg
/-- Does one of the validators accept. -/
def Validator.acceptsSome : List Validator → Config → Value → Bool
  | [], _, _ => false
  | v :: vs, cfg, x => v.accepts cfg x || Validator.acceptsSome vs cfg x
end

mutual
/-- The attributes of the configuration, other than its own, that a validator reads. -/
def Validator.refs : Validator → List String
  | .Any vs => Validator.refsList vs
  | .AnyWithAllWarnings vs => Validator.refsList vs
  | .AnyBool vs => Validator.refsList vs
  | .RequiresAttributeEqualString (.MatchRoot a) _ => [a]
  | _ => []
/-- The attributes that the validators of a list read. -/
def Validator.refsList : List Validator → List String
  | [] => []
  | v :: vs => v.refs ++ Validator.refsList vs
end

/-- The verdict of a list of validators on a known value: the framework runs every validator
of the attribute and the value passes when none raises an error. -/
def Validator.acceptsAll (vs : List Validator) (cfg : Config) (x : Value) : Bool :=
  vs.all (fun v => v.accepts cfg x)

/-- Is the validator a string-pattern check. -/
def Validator.isRegexMatches : Validator → Bool
  | .RegexMatches _ _ => true
  | _ => false

/-- Is the validator an enumeration check. -/
def Validator.isOneOf : Validator → Bool
  | .OneOf _ => true
  | _ => false

/-! ## The glue layer `lucirpcglue`, as far as the tables use it -/

namespace lucirpcglue

/-- Modelled from the spec: the constant `lucirpcglue.IdAttribute` is not among the sources;
it is the attribute name of the identifier, the `tfsdk` tag `id` of every `model.Id`. -/
def IdAttribute : String := "id"

/-- Modelled from the spec: the type `lucirpcglue.AttributeExistence` is not among the
sources; these are the three presence rules the tables name (the spec lists required,
optional, read-only and computed). -/
inductive AttributeExistence where
  | NoValidation
  | ReadOnly
  | Required
  deriving DecidableEq

/-- Modelled from the spec: what a presence rule asks of a resource configuration. A
`Required` attribute has to be set, a `ReadOnly` attribute cannot be set, and `NoValidation`
leaves the attribute optional. The result tells whether the rule is broken by the value the
configuration gives (`none` when it gives none). -/
def AttributeExistence.violatedBy : AttributeExistence → Option Value → Bool
  | .Required, none => true
  | .ReadOnly, some _ => true
  | _, _ => false

/-- Modelled from the spec: `lucirpcglue.ReadResponseOptionString`, `...Int64`, `...Bool` and
`...ListString` are not among the sources; the model keeps their arguments: the model
setter, the attribute name and the UCI option the value is read from. -/
structure ReadResponse (M V : Type) where
  set : M → V → M
  attributeName : String
  uciOption : String

/-- Modelled from the spec: `lucirpcglue.UpsertRequestOptionString`, `...Int64`, `...Bool`
and `...ListString` are not among the sources; the model keeps their arguments: the model
getter, the attribute name and the UCI option the value is written to. -/
structure UpsertRequest (M V : Type) where
  get : M → V
  attributeName : String
  uciOption : String

def ReadResponseOptionString {M : Type} (set : M → types.String → M)
    (attributeName uciOption : String) : ReadResponse M types.String :=
  { set := set, attributeName := attributeName, uciOption := uciOption }

def ReadResponseOptionInt64 {M : Type} (set : M → types.Int64 → M)
    (attributeName uciOption : String) : ReadResponse M types.Int64 :=
  { set := set, attributeName := attributeName, uciOption := uciOption }

def ReadResponseOptionBool {M : Type} (set : M → types.Bool → M)
    (attributeName uciOption : String) : ReadResponse M types.Bool :=
  { set := set, attributeName := attributeName, uciOption := uciOption }

def ReadResponseOptionListString {M : Type} (set : M → types.List → M)
    (attributeName uciOption : String) : ReadResponse M types.List :=
  { set := set, attributeName := attributeName, uciOption := uciOption }

def UpsertRequestOptionString {M : Type} (get : M → types.String)
    (attributeName uciOption : String) : UpsertRequest M types.String :=
  { get := get, attributeName := attributeName, uciOption := uciOption }

def UpsertRequestOptionInt64 {M : Type} (get : M → types.Int64)
    (attributeName uciOption : String) : UpsertRequest M types.Int64 :=
  { get := get, attributeName := attributeName, uciOption := uciOption }

def UpsertRequestOptionBool {M : Type} (get : M → types.Bool)
    (attributeName uciOption : String) : UpsertRequest M types.Bool :=
  { get := get, attributeName := attributeName, uciOption := uciOption }

def UpsertRequestOptionListString {M : Type} (get : M → types.List)
    (attributeName uciOption : String) : UpsertRequest M types.List :=
  { get := get, attributeName := attributeName, uciOption := uciOption }

/-- Modelled from the spec: the struct types `lucirpcglue.StringSchemaAttribute`,
`Int64SchemaAttribute`, `BoolSchemaAttribute` and `ListStringSchemaAttribute` are not among
the sources; these are the fields their literals give, over the model `M` and the field type
`V`. A field a literal leaves out is `none` (no validators: the empty list). -/
structure Attribute (M V : Type) where
  DataSourceExistence : Option AttributeExistence := none
  Description : String
  ReadResponse : Option (ReadResponse M V) := none
  ResourceExistence : AttributeExistence
  UpsertRequest : Option (UpsertRequest M V) := none
  Validators : List Validator := []

/-- Modelled from the spec: the interface `lucirpcglue.SchemaAttribute` is not among the
sources. An entry of an attribute table is one of the four struct literals, or the entry that
`lucirpcglue.IdSchemaAttribute(get, set)` builds, of which the sources show the arguments
only. -/
inductive SchemaAttribute (M : Type) where
  | StringSchemaAttribute (a : Attribute M types.String)
  | Int64SchemaAttribute (a : Attribute M types.Int64)
  | BoolSchemaAttribute (a : Attribute M types.Bool)
  | ListStringSchemaAttribute (a : Attribute M types.List)
  | IdSchemaAttribute (get : M → types.String) (set : M → types.String → M)

/-- The call `lucirpcglue.IdSchemaAttribute(get, set)`. -/
def IdSchemaAttribute {M : Type} (get : M → types.String) (set : M → types.String → M) :
    SchemaAttribute M :=
  .IdSchemaAttribute get set

/-- Is the entry one of the four struct literals written out in the sources. -/
def SchemaAttribute.isDeclared {M : Type} : SchemaAttribute M → Bool
  | .IdSchemaAttribute _ _ => false
  | _ => true

/-- The type of the values of the attribute. -/
def SchemaAttribute.fieldType {M : Type} : SchemaAttribute M → FieldType
  | .StringSchemaAttribute _ => .String
  | .Int64SchemaAttribute _ => .Int64
  | .BoolSchemaAttribute _ => .Bool
  | .ListStringSchemaAttribute _ => .List
  | .IdSchemaAttribute _ _ => .String

/-- The validators the sources attach to the entry (for the `id` entry they give none). -/
def SchemaAttribute.Validators {M : Type} : SchemaAttribute M → List Validator
  | .StringSchemaAttribute a => a.Validators
  | .Int64SchemaAttribute a => a.Validators
  | .BoolSchemaAttribute a => a.Validators
  | .ListStringSchemaAttribute a => a.Validators
  | .IdSchemaAttribute _ _ => []

/-- The presence rule the sources declare for the entry in a resource (for the `id` entry
they declare none). -/
def SchemaAttribute.ResourceExistence {M : Type} :
    SchemaAttribute M → Option AttributeExistence
  | .StringSchemaAttribute a => some a.ResourceExistence
  | .Int64SchemaAttribute a => some a.ResourceExistence
  | .BoolSchemaAttribute a => some a.ResourceExistence
  | .ListStringSchemaAttribute a => some a.ResourceExistence
  | .IdSchemaAttribute _ _ => none

/-- The verdict of the validators of the attribute on the known value `x` it is given in the
configuration `cfg`. -/
def SchemaAttribute.validate {M : Type} (a : SchemaAttribute M) (cfg : Config) (x : Value) :
    Bool :=
  Validator.acceptsAll a.Validators cfg x

/-- The verdict of the string-pattern validators of the attribute on the text `s`. -/
def SchemaAttribute.patternAccepts {M : Type} (a : SchemaAttribute M) (s : String) : Bool :=
  Validator.acceptsAll (a.Validators.filter Validator.isRegexMatches) [] (.StringValue s)

/-- The verdict of the enumeration validators of the attribute on the text `s`. -/
def SchemaAttribute.enumAccepts {M : Type} (a : SchemaAttribute M) (s : String) : Bool :=
  Validator.acceptsAll (a.Validators.filter Validator.isOneOf) [] (.StringValue s)

/-- Modelled from the spec: `lucirpcglue.NewDataSource` and `lucirpcglue.NewResource` are not
among the sources; the model keeps the arguments they are called with. -/
structure Registration (M : Type) where
  getId : M → types.String
  schemaAttributes : List (String × SchemaAttribute M)
  schemaDescription : String
  uciConfig : String
  uciType : String

def NewDataSource {M : Type} (getId : M → types.String)
    (schemaAttributes : List (String × SchemaAttribute M))
    (schemaDescription uciConfig uciType : String) : Registration M :=
  { getId := getId, schemaAttributes := schemaAttributes,
    schemaDescription := schemaDescription, uciConfig := uciConfig, uciType := uciType }

def NewResource {M : Type} (getId : M → types.String)
    (schemaAttributes : List (String × SchemaAttribute M))
    (schemaDescription uciConfig uciType : String) : Registration M :=
  { getId := getId, schemaAttributes := schemaAttributes,
    schemaDescription := schemaDescription, uciConfig := uciConfig, uciType := uciType }

/-- The keys of the attributes whose presence rule the resource configuration breaks. -/
def presenceViolations {M : Type} (table : List (String × SchemaAttribute M))
    (cfg : Config) : List String :=
  (table.filter (fun e =>
    match e.2.ResourceExistence with
    | some rule => rule.violatedBy (cfg.lookup e.1)
    | none => false)).map Prod.fst

/-- The keys of the attributes whose validators reject the value the configuration gives
them. A null attribute is not validated. -/
def validatorViolations {M : Type} (table : List (String × SchemaAttribute M))
    (cfg : Config) : List String :=
  (table.filter (fun e =>
    match cfg.lookup e.1 with
    | some x => !e.2.validate cfg x
    | none => false)).map Prod.fst

/-- The names a configuration sets that are not keys of the table: Terraform refuses such a
configuration (unsupported argument). -/
def unsupportedArguments {M : Type} (table : List (String × SchemaAttribute M))
    (cfg : Config) : List String :=
  (cfg.map Prod.fst).filter (fun k => !(table.map Prod.fst).contains k)

end lucirpcglue

/-! ## Package `forwarding` (`openwrt/firewall/forwarding/forwarding.go`) -/

namespace forwarding

def destAttribute : String := "dest"
def destAttributeDescription : String := "zone dest"
def destUCIOption : String := "dest"
def srcAttribute : String := "src"
def srcAttributeDescription : String := "zone src"
def srcUCIOption : String := "src"
def familyAttribute : String := "family"
def familyAttributeDescription : String := "Applies the rule to specific protocol families. Defaults to automatically determining which family if unset."
def familyUCIOption : String := "family"
def familyIpv4 : String := "ipv4"
def familyIpv6 : String := "ipv6"
def familyAny : String := "any"
def schemaDescription : String := "Firewall zone rules for controlling flow between zones."
def uciConfig : String := "firewall"
def uciType : String := "forwarding"

/-- The record `model` of package `forwarding`. -/
structure model where
  Id : types.String
  Src : types.String
  Dest : types.String
  Family : types.String

/-- The declaration of `model`, field by field: Go name, Go type, `tfsdk` tag. -/
def modelFields : List ModelField :=
  [ { name := "Id", goType := .String, tfsdk := "id" },
    { name := "Src", goType := .String, tfsdk := "src" },
    { name := "Dest", goType := .String, tfsdk := "dest" },
    { name := "Family", goType := .String, tfsdk := "family" } ]

def modelGetSrc (m : model) : types.String := m.Src
def modelGetId (m : model) : types.String := m.Id
def modelGetDest (m : model) : types.String := m.Dest
def modelGetFamily (m : model) : types.String := m.Family

def modelSetSrc (m : model) (value : types.String) : model := { m with Src := value }
def modelSetDest (m : model) (value : types.String) : model := { m with Dest := value }
def modelSetId (m : model) (value : types.String) : model := { m with Id := value }
def modelSetFamily (m : model) (value : types.String) : model := { m with Family := value }

def destSchemaAttribute : lucirpcglue.SchemaAttribute model :=
  .StringSchemaAttribute
    { Description := destAttributeDescription
      ReadResponse := some (lucirpcglue.ReadResponseOptionString modelSetDest destAttribute destUCIOption)
      ResourceExistence := .Required
      UpsertRequest := some (lucirpcglue.UpsertRequestOptionString modelGetDest destAttribute destUCIOption) }

def srcSchemaAttribute : lucirpcglue.SchemaAttribute model :=
  .StringSchemaAttribute
    { Description := srcAttributeDescription
      ReadResponse := some (lucirpcglue.ReadResponseOptionString modelSetSrc srcAttribute srcUCIOption)
      ResourceExistence := .Required
      UpsertRequest := some (lucirpcglue.UpsertRequestOptionString modelGetSrc srcAttribute srcUCIOption) }

def familySchemaAttribute : lucirpcglue.SchemaAttribute model :=
  .StringSchemaAttribute
    { Description := familyAttributeDescription
      ReadResponse := some (lucirpcglue.ReadResponseOptionString modelSetFamily familyAttribute familyUCIOption)
      ResourceExistence := .NoValidation
      UpsertRequest := some (lucirpcglue.UpsertRequestOptionString modelGetFamily familyAttribute familyUCIOption)
      Validators :=
        [ .OneOf [familyIpv6, familyIpv4, familyAny] ] }

def schemaAttributes : List (String × lucirpcglue.SchemaAttribute model) :=
  [ (srcAttribute, srcSchemaAttribute),
    (lucirpcglue.IdAttribute, lucirpcglue.IdSchemaAttribute modelGetId modelSetId),
    (destAttribute, destSchemaAttribute),
    (familyAttribute, familySchemaAttribute) ]

def NewDataSource : lucirpcglue.Registration model :=
  lucirpcglue.NewDataSource modelGetId schemaAttributes schemaDescription uciConfig uciType

def NewResource : lucirpcglue.Registration model :=
  lucirpcglue.NewResource modelGetId schemaAttributes schemaDescription uciConfig uciType

end forwarding

/-! ## Package `zone` (`openwrt/firewall/zone/zone.go`) -/

namespace zone

def nameAttribute : String := "name"
def nameAttributeDescription : String := "The name of the zone."
def nameUCIOption : String := "name"
def forwardAttribute : String := "forward"
def forwardAttributeDescription : String := "Zone forwarding policy."
def forwardUCIOption : String := "forward"
def inputAttribute : String := "input"
def inputAttributeDescription : String := "Zone input policy."
def inputUCIOption : String := "input"
def outputAttribute : String := "output"
def outputAttributeDescription : String := "Zone output policy."
def outputUCIOption : String := "output"
def networkAttribute : String := "network"
def networkAttributeDescription : String := "List of network interfaces this zone applies to."
def networkUCIOption : String := "network"
def masqAttribute : String := "masquerade"
def masqAttributeDescription : String := "Enable masquerading on this zone. Needed for NAT."
def masqUCIOption : String := "masq"
def mtuFixAttribute : String := "mssclamp"
def mtuFixAttributeDescription : String := "Enable MSS clamping for zones that have none default MTU."
def mtuFixUCIOption : String := "mtu_fix"
def schemaDescription : String := "Firewall zone configurations to associate with network interfaces."
def uciConfig : String := "firewall"
def uciType : String := "zone"
def typeAccept : String := "ACCEPT"
def typeReject : String := "REJECT"
def typeDrop : String := "DROP"

/-- The record `model` of package `zone`. -/
structure model where
  Id : types.String
  Forward : types.String
  Output : types.String
  Input : types.String
  Name : types.String
  Network : types.List
  Masquerade : types.Bool
  MssClamp : types.Bool

/-- The declaration of `model`, field by field: Go name, Go type, `tfsdk` tag. -/
def modelFields : List ModelField :=
  [ { name := "Id", goType := .String, tfsdk := "id" },
    { name := "Forward", goType := .String, tfsdk := "forward" },
    { name := "Output", goType := .String, tfsdk := "output" },
    { name := "Input", goType := .String, tfsdk := "input" },
    { name := "Name", goType := .String, tfsdk := "name" },
    { name := "Network", goType := .List, tfsdk := "network" },
    { name := "Masquerade", goType := .Bool, tfsdk := "masquerade" },
    { name := "MssClamp", goType := .Bool, tfsdk := "mssclamp" } ]

def modelGetOutput (m : model) : types.String := m.Output
def modelGetId (m : model) : types.String := m.Id
def modelGetInput (m : model) : types.String := m.Input
def modelGetName (m : model) : types.String := m.Name
def modelGetForward (m : model) : types.String := m.Forward
def modelGetNetwork (m : model) : types.List := m.Network
def modelGetMasq (m : model) : types.Bool := m.Masquerade
def modelGetMtuFix (m : model) : types.Bool := m.MssClamp

def modelSetOutput (m : model) (value : types.String) : model := { m with Output := value }
def modelSetForward (m : model) (value : types.String) : model := { m with Forward := value }
def modelSetInput (m : model) (value : types.String) : model := { m with Input := value }
def modelSetName (m : model) (value : types.String) : model := { m with Name := value }
def modelSetId (m : model) (value : types.String) : model := { m with Id := value }
def modelSetNetwork (m : model) (value : types.List) : model := { m with Network := value }
def modelSetMasq (m : model) (value : types.Bool) : model := { m with Masquerade := value }
def modelSetMtuFix (m : model) (value : types.Bool) : model := { m with MssClamp := value }

def TypeValidators : List Validator :=
  [ .OneOf [typeAccept, typeReject, typeDrop] ]

def nameSchemaAttribute : lucirpcglue.SchemaAttribute model :=
  .StringSchemaAttribute
    { Description := nameAttributeDescription
      ReadResponse := some (lucirpcglue.ReadResponseOptionString modelSetName nameAttribute nameUCIOption)
      ResourceExistence := .Required
      UpsertRequest := some (lucirpcglue.UpsertRequestOptionString modelGetName nameAttribute nameUCIOption) }

def forwardSchemaAttribute : lucirpcglue.SchemaAttribute model :=
  .StringSchemaAttribute
    { Description := forwardAttributeDescription
      ReadResponse := some (lucirpcglue.ReadResponseOptionString modelSetForward forwardAttribute forwardUCIOption)
      ResourceExistence := .Required
      UpsertRequest := some (lucirpcglue.UpsertRequestOptionString modelGetForward forwardAttribute forwardUCIOption)
      Validators := TypeValidators }

def inputSchemaAttribute : lucirpcglue.SchemaAttribute model :=
  .StringSchemaAttribute
    { Description := inputAttributeDescription
      ReadResponse := some (lucirpcglue.ReadResponseOptionString modelSetInput inputAttribute inputUCIOption)
      ResourceExistence := .Required
      UpsertRequest := some (lucirpcglue.UpsertRequestOptionString modelGetInput inputAttribute inputUCIOption)
      Validators := TypeValidators }

def outputSchemaAttribute : lucirpcglue.SchemaAttribute model :=
  .StringSchemaAttribute
    { Description := outputAttributeDescription
      ReadResponse := some (lucirpcglue.ReadResponseOptionString modelSetOutput outputAttribute outputUCIOption)
      ResourceExistence := .Required
      UpsertRequest := some (lucirpcglue.UpsertRequestOptionString modelGetOutput outputAttribute outputUCIOption)
      Validators := TypeValidators }

def networkSchemaAttribute : lucirpcglue.SchemaAttribute model :=
  .ListStringSchemaAttribute
    { Description := networkAttributeDescription
      ReadResponse := some (lucirpcglue.ReadResponseOptionListString modelSetNetwork networkAttribute networkUCIOption)
      ResourceExistence := .Required
      UpsertRequest := some (lucirpcglue.UpsertRequestOptionListString modelGetNetwork networkAttribute networkUCIOption)
      Validators :=
        [ .SizeAtLeast 1 ] }

def masqSchemaAttribute : lucirpcglue.SchemaAttribute model :=
  .BoolSchemaAttribute
    { Description := masqAttributeDescription
      ReadResponse := some (lucirpcglue.ReadResponseOptionBool modelSetMasq masqAttribute masqUCIOption)
      ResourceExistence := .NoValidation
      UpsertRequest := some (lucirpcglue.UpsertRequestOptionBool modelGetMasq masqAttribute masqUCIOption) }

def mtuFixSchemaAttribute : lucirpcglue.SchemaAttribute model :=
  .BoolSchemaAttribute
    { Description := mtuFixAttributeDescription
      ReadResponse := some (lucirpcglue.ReadResponseOptionBool modelSetMtuFix mtuFixAttribute mtuFixUCIOption)
      ResourceExistence := .NoValidation
      UpsertRequest := some (lucirpcglue.UpsertRequestOptionBool modelGetMtuFix mtuFixAttribute mtuFixUCIOption) }

def schemaAttributes : List (String × lucirpcglue.SchemaAttribute model) :=
  [ (forwardAttribute, forwardSchemaAttribute),
    (lucirpcglue.IdAttribute, lucirpcglue.IdSchemaAttribute modelGetId modelSetId),
    (inputAttribute, inputSchemaAttribute),
    (outputAttribute, outputSchemaAttribute),
    (nameAttribute, nameSchemaAttribute),
    (networkAttribute, networkSchemaAttribute),
    (masqAttribute, masqSchemaAttribute),
    (mtuFixAttribute, mtuFixSchemaAttribute) ]

def NewDataSource : lucirpcglue.Registration model :=
  lucirpcglue.NewDataSource modelGetId schemaAttributes schemaDescription uciConfig uciType

def NewResource : lucirpcglue.Registration model :=
  lucirpcglue.NewResource modelGetId schemaAttributes schemaDescription uciConfig uciType

end zone

/-! ## Package `rule` (`openwrt/firewall/rule/rule.go`) -/

namespace rule

def nameAttribute : String := "name"
def nameAttributeDescription : String := "Human readable rule name."
def nameUCIOption : String := "name"
def targetAttribute : String := "target"
def targetAttributeDescription : String := "Action to take on rule match, e.g. ACCEPT, REJECT, DROP..."
def targetUCIOption : String := "target"
def destAttribute : String := "dest"
def destAttributeDescription : String := "Rule applies to traffic entering this zone"
def destUCIOption : String := "dest"
def destPortAttribute : String := "dest_port"
def destPortAttributeDescription : String := "Rule applies to traffic targetting this port"
def destPortUCIOption : String := "dest_port"
def destIpAttribute : String := "dest_ip"
def destIpAttributeDescription : String := "Rule applies to traffic targetting these IP addresses."
def destIpUCIOption : String := "dest_ip"
def srcAttribute : String := "src"
def srcAttributeDescription : String := "Rule applies to traffic from this zone"
def srcUCIOption : String := "src"
def srcPortAttribute : String := "src_port"
def srcPortAttributeDescription : String := "Rule applies to traffic originating from this port"
def srcPortUCIOption : String := "src_port"
def srcIpAttribute : String := "src_ip"
def srcIpAttributeDescription : String := "Rule applies to traffic originating from any of these IP addresses."
def srcIpUCIOption : String := "src_ip"
def familyAttribute : String := "family"
def familyAttributeDescription : String := "Restrict the rule to a single protocol family, must be one of \"ipv4\" or \"ipv6\". Applies to both if unset."
def familyUCIOption : String := "family"
def familyIpv4 : String := "ipv4"
def familyIpv6 : String := "ipv6"
def protocolAttribute : String := "proto"
def protocolAttributeDescription : String := "List of protocols this rule applies to, currently only supports \"tcp\" and \"udp\""
def protocolUCIOption : String := "proto"
def schemaDescription : String := "Firewall traffic rules allowing ports to pass between zones."
def uciConfig : String := "firewall"
def uciType : String := "rule"

/-- The record `model` of package `rule`. -/
structure model where
  Id : types.String
  Src : types.String
  SrcPort : types.Int64
  SrcIp : types.List
  Dest : types.String
  DestPort : types.Int64
  DestIp : types.List
  Target : types.String
  Name : types.String
  Family : types.String
  Protocol : types.List

/-- The declaration of `model`, field by field: Go name, Go type, `tfsdk` tag. -/
def modelFields : List ModelField :=
  [ { name := "Id", goType := .String, tfsdk := "id" },
    { name := "Src", goType := .String, tfsdk := "src" },
    { name := "SrcPort", goType := .Int64, tfsdk := "src_port" },
    { name := "SrcIp", goType := .List, tfsdk := "src_ip" },
    { name := "Dest", goType := .String, tfsdk := "dest" },
    { name := "DestPort", goType := .Int64, tfsdk := "dest_port" },
    { name := "DestIp", goType := .List, tfsdk := "dest_ip" },
    { name := "Target", goType := .String, tfsdk := "target" },
    { name := "Name", goType := .String, tfsdk := "name" },
    { name := "Family", goType := .String, tfsdk := "family" },
    { name := "Protocol", goType := .List, tfsdk := "proto" } ]

def modelGetTarget (m : model) : types.String := m.Target
def modelGetName (m : model) : types.String := m.Name
def modelGetSrc (m : model) : types.String := m.Src
def modelGetSrcPort (m : model) : types.Int64 := m.SrcPort
def modelGetSrcIp (m : model) : types.List := m.SrcIp
def modelGetId (m : model) : types.String := m.Id
def modelGetDest (m : model) : types.String := m.Dest
def modelGetFamily (m : model) : types.String := m.Family
def modelGetDestPort (m : model) : types.Int64 := m.DestPort
def modelGetDestIp (m : model) : types.List := m.DestIp
def modelGetProtocol (m : model) : types.List := m.Protocol

def modelSetSrc (m : model) (value : types.String) : model := { m with Src := value }
def modelSetSrcPort (m : model) (value : types.Int64) : model := { m with SrcPort := value }
def modelSetSrcIp (m : model) (value : types.List) : model := { m with SrcIp := value }
def modelSetDest (m : model) (value : types.String) : model := { m with Dest := value }
def modelSetId (m : model) (value : types.String) : model := { m with Id := value }
def modelSetTarget (m : model) (value : types.String) : model := { m with Target := value }
def modelSetName (m : model) (value : types.String) : model := { m with Name := value }
def modelSetFamily (m : model) (value : types.String) : model := { m with Family := value }
def modelSetDestPort (m : model) (value : types.Int64) : model := { m with DestPort := value }
def modelSetDestIp (m : model) (value : types.List) : model := { m with DestIp := value }
def modelSetProtocol (m : model) (value : types.List) : model := { m with Protocol := value }

def nameSchemaAttribute : lucirpcglue.SchemaAttribute model :=
  .StringSchemaAttribute
    { Description := nameAttributeDescription
      ReadResponse := some (lucirpcglue.ReadResponseOptionString modelSetName nameAttribute nameUCIOption)
      ResourceExistence := .Required
      UpsertRequest := some (lucirpcglue.UpsertRequestOptionString modelGetName nameAttribute nameUCIOption) }

def targetSchemaAttribute : lucirpcglue.SchemaAttribute model :=
  .StringSchemaAttribute
    { Description := targetAttributeDescription
      ReadResponse := some (lucirpcglue.ReadResponseOptionString modelSetTarget targetAttribute targetUCIOption)
      ResourceExistence := .Required
      UpsertRequest := some (lucirpcglue.UpsertRequestOptionString modelGetTarget targetAttribute targetUCIOption)
      Validators := zone.TypeValidators }

def destSchemaAttribute : lucirpcglue.SchemaAttribute model :=
  .StringSchemaAttribute
    { Description := destAttributeDescription
      ReadResponse := some (lucirpcglue.ReadResponseOptionString modelSetDest destAttribute destUCIOption)
      ResourceExistence := .NoValidation
      UpsertRequest := some (lucirpcglue.UpsertRequestOptionString modelGetDest destAttribute destUCIOption) }

def destPortSchemaAttribute : lucirpcglue.SchemaAttribute model :=
  .Int64SchemaAttribute
    { Description := destPortAttributeDescription
      ReadResponse := some (lucirpcglue.ReadResponseOptionInt64 modelSetDestPort destPortAttribute destPortUCIOption)
      ResourceExistence := .NoValidation
      UpsertRequest := some (lucirpcglue.UpsertRequestOptionInt64 modelGetDestPort destPortAttribute destPortUCIOption)
      Validators :=
        [ .Any [] ] }

def destIpSchemaAttribute : lucirpcglue.SchemaAttribute model :=
  .ListStringSchemaAttribute
    { Description := destIpAttributeDescription
      ReadResponse := some (lucirpcglue.ReadResponseOptionListString modelSetDestIp destIpAttribute destIpUCIOption)
      ResourceExistence := .NoValidation
      UpsertRequest := some (lucirpcglue.UpsertRequestOptionListString modelGetDestIp destIpAttribute destIpUCIOption)
      Validators :=
        [ .SizeAtLeast 1 ] }

def srcSchemaAttribute : lucirpcglue.SchemaAttribute model :=
  .StringSchemaAttribute
    { Description := srcAttributeDescription
      ReadResponse := some (lucirpcglue.ReadResponseOptionString modelSetSrc srcAttribute srcUCIOption)
      ResourceExistence := .NoValidation
      UpsertRequest := some (lucirpcglue.UpsertRequestOptionString modelGetSrc srcAttribute srcUCIOption) }

def srcPortSchemaAttribute : lucirpcglue.SchemaAttribute model :=
  .Int64SchemaAttribute
    { Description := srcPortAttributeDescription
      ReadResponse := some (lucirpcglue.ReadResponseOptionInt64 modelSetSrcPort srcPortAttribute srcPortUCIOption)
      ResourceExistence := .NoValidation
      UpsertRequest := some (lucirpcglue.UpsertRequestOptionInt64 modelGetSrcPort srcPortAttribute srcPortUCIOption)
      Validators :=
        [ .Any [] ] }

def srcIpSchemaAttribute : lucirpcglue.SchemaAttribute model :=
  .ListStringSchemaAttribute
    { Description := srcIpAttributeDescription
      ReadResponse := some (lucirpcglue.ReadResponseOptionListString modelSetSrcIp srcIpAttribute srcIpUCIOption)
      ResourceExistence := .NoValidation
      UpsertRequest := some (lucirpcglue.UpsertRequestOptionListString modelGetSrcIp srcIpAttribute srcIpUCIOption)
      Validators :=
        [ .SizeAtLeast 1 ] }

def familySchemaAttribute : lucirpcglue.SchemaAttribute model :=
  .StringSchemaAttribute
    { Description := familyAttributeDescription
      ReadResponse := some (lucirpcglue.ReadResponseOptionString modelSetFamily familyAttribute familyUCIOption)
      ResourceExistence := .NoValidation
      UpsertRequest := some (lucirpcglue.UpsertRequestOptionString modelGetFamily familyAttribute familyUCIOption)
      Validators :=
        [ .OneOf [familyIpv6, familyIpv4] ] }

def protocolSchemaAttribute : lucirpcglue.SchemaAttribute model :=
  .ListStringSchemaAttribute
    { Description := protocolAttributeDescription
      ReadResponse := some (lucirpcglue.ReadResponseOptionListString modelSetProtocol protocolAttribute protocolUCIOption)
      ResourceExistence := .NoValidation
      UpsertRequest := some (lucirpcglue.UpsertRequestOptionListString modelGetProtocol protocolAttribute protocolUCIOption)
      Validators :=
        [ .SizeAtLeast 1 ] }

def schemaAttributes : List (String × lucirpcglue.SchemaAttribute model) :=
  [ (srcAttribute, srcSchemaAttribute),
    (srcPortAttribute, srcPortSchemaAttribute),
    (srcIpAttribute, srcIpSchemaAttribute),
    (lucirpcglue.IdAttribute, lucirpcglue.IdSchemaAttribute modelGetId modelSetId),
    (destAttribute, destSchemaAttribute),
    (destPortAttribute, destPortSchemaAttribute),
    (destIpAttribute, destIpSchemaAttribute),
    (targetAttribute, targetSchemaAttribute),
    (nameAttribute, nameSchemaAttribute),
    (familyAttribute, familySchemaAttribute),
    (protocolAttribute, protocolSchemaAttribute) ]

def NewDataSource : lucirpcglue.Registration model :=
  lucirpcglue.NewDataSource modelGetId schemaAttributes schemaDescription uciConfig uciType

def NewResource : lucirpcglue.Registration model :=
  lucirpcglue.NewResource modelGetId schemaAttributes schemaDescription uciConfig uciType

end rule

/-! ## Package `redirect` (`openwrt/firewall/redirect/redirect.go`) -/

namespace redirect

def nameAttribute : String := "name"
def nameAttributeDescription : String := "Human readable rule name."
def nameUCIOption : String := "name"
def targetAttribute : String := "target"
def targetAttributeDescription : String := "NAT target, must be either \"DNAT\" or \"SNAT\""
def targetUCIOption : String := "target"
def targetDnat : String := "DNAT"
def targetSnat : String := "SNAT"
def destAttribute : String := "dest"
def destAttributeDescription : String := "Rule applies to traffic entering this zone"
def destUCIOption : String := "dest"
def destPortAttribute : String := "dest_port"
def destPortAttributeDescription : String := "Rule applies to traffic targetting this port"
def destPortUCIOption : String := "dest_port"
def destIpAttribute : String := "dest_ip"
def destIpAttributeDescription : String := "Rule applies to traffic targetting these IP addresses."
def destIpUCIOption : String := "dest_ip"
def srcAttribute : String := "src"
def srcAttributeDescription : String := "Rule applies to traffic from this zone"
def srcUCIOption : String := "src"
def srcPortAttribute : String := "src_port"
def srcPortAttributeDescription : String := "Rule applies to traffic originating from this port"
def srcPortUCIOption : String := "src_port"
def srcDPortAttribute : String := "src_dport"
def srcDPortAttributeDescription : String := "Rule applies to traffic targetting this port"
def srcDPortUCIOption : String := "src_dport"
def srcIpAttribute : String := "src_ip"
def srcIpAttributeDescription : String := "Rule applies to traffic originating from any of these IP addresses."
def srcIpUCIOption : String := "src_ip"
def srcDipAttribute : String := "src_dip"
def srcDipAttributeDescription : String := "Rule applies to traffic originating from any of these IP addresses."
def srcDipUCIOption : String := "src_dip"
def familyAttribute : String := "family"
def familyAttributeDescription : String := "Applies the rule to specific protocol families. Defaults to automatically determining which family if unset."
def familyUCIOption : String := "family"
def familyIpv4 : String := "ipv4"
def familyIpv6 : String := "ipv6"
def familyAny : String := "any"
def protocolAttribute : String := "proto"
def protocolAttributeDescription : String := "List of protocols this rule applies to, currently only supports \"tcp\" and \"udp\""
def protocolUCIOption : String := "proto"
def schemaDescription : String := "Firewall traffic port forwarding redirects allowing traffic intended for a port on the currnent host to be sent to a port on a different host."
def uciConfig : String := "firewall"
def uciType : String := "redirect"

/-- The record `model` of package `redirect`. -/
structure model where
  Id : types.String
  Src : types.String
  SrcPort : types.Int64
  SrcDPort : types.Int64
  SrcIp : types.List
  SrcDip : types.List
  Dest : types.String
  DestPort : types.Int64
  DestIp : types.List
  Target : types.String
  Name : types.String
  Family : types.String
  Protocol : types.List

/-- The declaration of `model`, field by field: Go name, Go type, `tfsdk` tag. -/
def modelFields : List ModelField :=
  [ { name := "Id", goType := .String, tfsdk := "id" },
    { name := "Src", goType := .String, tfsdk := "src" },
    { name := "SrcPort", goType := .Int64, tfsdk := "src_port" },
    { name := "SrcDPort", goType := .Int64, tfsdk := "src_dport" },
    { name := "SrcIp", goType := .List, tfsdk := "src_ip" },
    { name := "SrcDip", goType := .List, tfsdk := "src_dip" },
    { name := "Dest", goType := .String, tfsdk := "dest" },
    { name := "DestPort", goType := .Int64, tfsdk := "dest_port" },
    { name := "DestIp", goType := .List, tfsdk := "dest_ip" },
    { name := "Target", goType := .String, tfsdk := "target" },
    { name := "Name", goType := .String, tfsdk := "name" },
    { name := "Family", goType := .String, tfsdk := "family" },
    { name := "Protocol", goType := .List, tfsdk := "proto" } ]

def modelGetTarget (m : model) : types.String := m.Target
def modelGetName (m : model) : types.String := m.Name
def modelGetSrc (m : model) : types.String := m.Src
def modelGetSrcPort (m : model) : types.Int64 := m.SrcPort
def modelGetSrcDPort (m : model) : types.Int64 := m.SrcDPort
def modelGetSrcIp (m : model) : types.List := m.SrcIp
def modelGetSrcDip (m : model) : types.List := m.SrcDip
def modelGetId (m : model) : types.String := m.Id
def modelGetDest (m : model) : types.String := m.Dest
def modelGetFamily (m : model) : types.String := m.Family
def modelGetDestPort (m : model) : types.Int64 := m.DestPort
def modelGetDestIp (m : model) : types.List := m.DestIp
def modelGetProtocol (m : model) : types.List := m.Protocol

def modelSetSrc (m : model) (value : types.String) : model := { m with Src := value }
def modelSetSrcPort (m : model) (value : types.Int64) : model := { m with SrcPort := value }
def modelSetSrcDPort (m : model) (value : types.Int64) : model := { m with SrcDPort := value }
def modelSetSrcIp (m : model) (value : types.List) : model := { m with SrcIp := value }
def modelSetSrcDip (m : model) (value : types.List) : model := { m with SrcDip := value }
def modelSetDest (m : model) (value : types.String) : model := { m with Dest := value }
def modelSetId (m : model) (value : types.String) : model := { m with Id := value }
def modelSetTarget (m : model) (value : types.String) : model := { m with Target := value }
def modelSetName (m : model) (value : types.String) : model := { m with Name := value }
def modelSetFamily (m : model) (value : types.String) : model := { m with Family := value }
def modelSetDestPort (m : model) (value : types.Int64) : model := { m with DestPort := value }
def modelSetDestIp (m : model) (value : types.List) : model := { m with DestIp := value }
def modelSetProtocol (m : model) (value : types.List) : model := { m with Protocol := value }

def nameSchemaAttribute : lucirpcglue.SchemaAttribute model :=
  .StringSchemaAttribute
    { Description := nameAttributeDescription
      ReadResponse := some (lucirpcglue.ReadResponseOptionString modelSetName nameAttribute nameUCIOption)
      ResourceExistence := .Required
      UpsertRequest := some (lucirpcglue.UpsertRequestOptionString modelGetName nameAttribute nameUCIOption) }

def targetSchemaAttribute : lucirpcglue.SchemaAttribute model :=
  .StringSchemaAttribute
    { Description := targetAttributeDescription
      ReadResponse := some (lucirpcglue.ReadResponseOptionString modelSetTarget targetAttribute targetUCIOption)
      ResourceExistence := .Required
      UpsertRequest := some (lucirpcglue.UpsertRequestOptionString modelGetTarget targetAttribute targetUCIOption)
      Validators :=
        [ .OneOf [targetDnat, targetSnat] ] }

def destSchemaAttribute : lucirpcglue.SchemaAttribute model :=
  .StringSchemaAttribute
    { Description := destAttributeDescription
      ReadResponse := some (lucirpcglue.ReadResponseOptionString modelSetDest destAttribute destUCIOption)
      ResourceExistence := .Required
      UpsertRequest := some (lucirpcglue.UpsertRequestOptionString modelGetDest destAttribute destUCIOption) }

def destPortSchemaAttribute : lucirpcglue.SchemaAttribute model :=
  .Int64SchemaAttribute
    { Description := destPortAttributeDescription
      ReadResponse := some (lucirpcglue.ReadResponseOptionInt64 modelSetDestPort destPortAttribute destPortUCIOption)
      ResourceExistence := .Required
      UpsertRequest := some (lucirpcglue.UpsertRequestOptionInt64 modelGetDestPort destPortAttribute destPortUCIOption)
      Validators :=
        [ .Any [] ] }

def destIpSchemaAttribute : lucirpcglue.SchemaAttribute model :=
  .ListStringSchemaAttribute
    { Description := destIpAttributeDescription
      ReadResponse := some (lucirpcglue.ReadResponseOptionListString modelSetDestIp destIpAttribute destIpUCIOption)
      ResourceExistence := .Required
      UpsertRequest := some (lucirpcglue.UpsertRequestOptionListString modelGetDestIp destIpAttribute destIpUCIOption)
      Validators :=
        [ .SizeAtLeast 1 ] }

def srcSchemaAttribute : lucirpcglue.SchemaAttribute model :=
  .StringSchemaAttribute
    { Description := srcAttributeDescription
      ReadResponse := some (lucirpcglue.ReadResponseOptionString modelSetSrc srcAttribute srcUCIOption)
      ResourceExistence := .Required
      UpsertRequest := some (lucirpcglue.UpsertRequestOptionString modelGetSrc srcAttribute srcUCIOption) }

def srcPortSchemaAttribute : lucirpcglue.SchemaAttribute model :=
  .Int64SchemaAttribute
    { Description := srcPortAttributeDescription
      ReadResponse := some (lucirpcglue.ReadResponseOptionInt64 modelSetSrcPort srcPortAttribute srcPortUCIOption)
      ResourceExistence := .NoValidation
      UpsertRequest := some (lucirpcglue.UpsertRequestOptionInt64 modelGetSrcPort srcPortAttribute srcPortUCIOption)
      Validators :=
        [ .Any [] ] }

def srcDPortSchemaAttribute : lucirpcglue.SchemaAttribute model :=
  .Int64SchemaAttribute
    { Description := srcDPortAttributeDescription
      ReadResponse := some (lucirpcglue.ReadResponseOptionInt64 modelSetSrcDPort srcDPortAttribute srcDPortUCIOption)
      ResourceExistence := .NoValidation
      UpsertRequest := some (lucirpcglue.UpsertRequestOptionInt64 modelGetSrcDPort srcDPortAttribute srcDPortUCIOption)
      Validators :=
        [ .Any [] ] }

def srcIpSchemaAttribute : lucirpcglue.SchemaAttribute model :=
  .ListStringSchemaAttribute
    { Description := srcIpAttributeDescription
      ReadResponse := some (lucirpcglue.ReadResponseOptionListString modelSetSrcIp srcIpAttribute srcIpUCIOption)
      ResourceExistence := .NoValidation
      UpsertRequest := some (lucirpcglue.UpsertRequestOptionListString modelGetSrcIp srcIpAttribute srcIpUCIOption)
      Validators :=
        [ .SizeAtLeast 1 ] }

def srcDipSchemaAttribute : lucirpcglue.SchemaAttribute model :=
  .ListStringSchemaAttribute
    { Description := srcDipAttributeDescription
      ReadResponse := some (lucirpcglue.ReadResponseOptionListString modelSetSrcDip srcDipAttribute srcDipUCIOption)
      ResourceExistence := .NoValidation
      UpsertRequest := some (lucirpcglue.UpsertRequestOptionListString modelGetSrcDip srcDipAttribute srcDipUCIOption)
      Validators :=
        [ .SizeAtLeast 1 ] }

def familySchemaAttribute : lucirpcglue.SchemaAttribute model :=
  .StringSchemaAttribute
    { Description := familyAttributeDescription
      ReadResponse := some (lucirpcglue.ReadResponseOptionString modelSetFamily familyAttribute familyUCIOption)
      ResourceExistence := .NoValidation
      UpsertRequest := some (lucirpcglue.UpsertRequestOptionString modelGetFamily familyAttribute familyUCIOption)
      Validators :=
        [ .OneOf [familyIpv6, familyIpv4, familyAny] ] }

def protocolSchemaAttribute : lucirpcglue.SchemaAttribute model :=
  .ListStringSchemaAttribute
    { Description := protocolAttributeDescription
      ReadResponse := some (lucirpcglue.ReadResponseOptionListString modelSetProtocol protocolAttribute protocolUCIOption)
      ResourceExistence := .Required
      UpsertRequest := some (lucirpcglue.UpsertRequestOptionListString modelGetProtocol protocolAttribute protocolUCIOption)
      Validators :=
        [ .SizeAtLeast 1 ] }

def schemaAttributes : List (String × lucirpcglue.SchemaAttribute model) :=
  [ (srcAttribute, srcSchemaAttribute),
    (srcPortAttribute, srcPortSchemaAttribute),
    (srcDPortAttribute, srcDPortSchemaAttribute),
    (srcIpAttribute, srcIpSchemaAttribute),
    (srcDipAttribute, srcDipSchemaAttribute),
    (lucirpcglue.IdAttribute, lucirpcglue.IdSchemaAttribute modelGetId modelSetId),
    (destAttribute, destSchemaAttribute),
    (destPortAttribute, destPortSchemaAttribute),
    (destIpAttribute, destIpSchemaAttribute),
    (targetAttribute, targetSchemaAttribute),
    (nameAttribute, nameSchemaAttribute),
    (familyAttribute, familySchemaAttribute),
    (protocolAttribute, protocolSchemaAttribute) ]

def NewDataSource : lucirpcglue.Registration model :=
  lucirpcglue.NewDataSource modelGetId schemaAttributes schemaDescription uciConfig uciType

def NewResource : lucirpcglue.Registration model :=
  lucirpcglue.NewResource modelGetId schemaAttributes schemaDescription uciConfig uciType

end redirect

/-! ## Package `bridgevlan` (`openwrt/network/bridgevlan/bridge_vlan.go`) -/

namespace bridgevlan

def deviceAttribute : String := "device"
def deviceAttributeDescription : String := "The bridge to configure."
def deviceUCIOption : String := "device"
def portsAttribute : String := "ports"
def portsAttributeDescription : String := "A list of port names that should be associated with the VLAN. Adding the suffix `\":t\"` to a port indicates that egress packets should be tagged, for example `\"[\"lan1:t\", \"lan2:t\"]\"`."
def portsUCIOption : String := "ports"
def vLanAttribute : String := "vlan"
def vLanAttributeDescription : String := "The VLAN tag value"
def vLanUCIOption : String := "vlan"
def schemaDescription : String := "Bridge VLAN configuration"
def uciConfig : String := "network"
def uciType : String := "bridge-vlan"

/-- The record `model` of package `bridgevlan`. -/
structure model where
  Device : types.String
  Id : types.String
  Ports : types.List
  VLan : types.Int64

/-- The declaration of `model`, field by field: Go name, Go type, `tfsdk` tag. -/
def modelFields : List ModelField :=
  [ { name := "Device", goType := .String, tfsdk := "device" },
    { name := "Id", goType := .String, tfsdk := "id" },
    { name := "Ports", goType := .List, tfsdk := "ports" },
    { name := "VLan", goType := .Int64, tfsdk := "vlan" } ]

def modelGetDevice (m : model) : types.String := m.Device
def modelGetId (m : model) : types.String := m.Id
def modelGetPorts (m : model) : types.List := m.Ports
def modelGetVLan (m : model) : types.Int64 := m.VLan

def modelSetDevice (m : model) (value : types.String) : model := { m with Device := value }
def modelSetId (m : model) (value : types.String) : model := { m with Id := value }
def modelSetPorts (m : model) (value : types.List) : model := { m with Ports := value }
def modelSetVLan (m : model) (value : types.Int64) : model := { m with VLan := value }

def deviceSchemaAttribute : lucirpcglue.SchemaAttribute model :=
  .StringSchemaAttribute
    { Description := deviceAttributeDescription
      ReadResponse := some (lucirpcglue.ReadResponseOptionString modelSetDevice deviceAttribute deviceUCIOption)
      ResourceExistence := .Required
      UpsertRequest := some (lucirpcglue.UpsertRequestOptionString modelGetDevice deviceAttribute deviceUCIOption) }

def portsSchemaAttribute : lucirpcglue.SchemaAttribute model :=
  .ListStringSchemaAttribute
    { Description := portsAttributeDescription
      ReadResponse := some (lucirpcglue.ReadResponseOptionListString modelSetPorts portsAttribute portsUCIOption)
      ResourceExistence := .Required
      UpsertRequest := some (lucirpcglue.UpsertRequestOptionListString modelGetPorts portsAttribute portsUCIOption) }

def vLanSchemaAttribute : lucirpcglue.SchemaAttribute model :=
  .Int64SchemaAttribute
    { Description := vLanAttributeDescription
      ReadResponse := some (lucirpcglue.ReadResponseOptionInt64 modelSetVLan vLanAttribute vLanUCIOption)
      ResourceExistence := .Required
      UpsertRequest := some (lucirpcglue.UpsertRequestOptionInt64 modelGetVLan vLanAttribute vLanUCIOption)
      Validators :=
        [ .Any [] ] }

def schemaAttributes : List (String × lucirpcglue.SchemaAttribute model) :=
  [ (deviceAttribute, deviceSchemaAttribute),
    (lucirpcglue.IdAttribute, lucirpcglue.IdSchemaAttribute modelGetId modelSetId),
    (portsAttribute, portsSchemaAttribute),
    (vLanAttribute, vLanSchemaAttribute) ]

def NewDataSource : lucirpcglue.Registration model :=
  lucirpcglue.NewDataSource modelGetId schemaAttributes schemaDescription uciConfig uciType

def NewResource : lucirpcglue.Registration model :=
  lucirpcglue.NewResource modelGetId schemaAttributes schemaDescription uciConfig uciType

end bridgevlan

/-! ## Package `networkinterface` (`openwrt/network/networkinterface/interface.go`) -/

namespace networkinterface

def bringUpOnBootAttribute : String := "auto"
def bringUpOnBootAttributeDescription : String := "Specifies whether to bring up this interface on boot."
def bringUpOnBootUCIOption : String := "auto"
def deviceAttribute : String := "device"
def deviceAttributeDescription : String := "Name of the (physical or virtual) device. This name is what the device is known as in LuCI or the `name` field in Terraform. This is not the UCI config name."
def deviceUCIOption : String := "device"
def disabledAttribute : String := "disabled"
def disabledAttributeDescription : String := "Disables this interface."
def disabledUCIOption : String := "disabled"
def dnsAttribute : String := "dns"
def dnsAttributeDescription : String := "DNS servers"
def dnsUCIOption : String := "dns"
def gatewayAttribute : String := "gateway"
def gatewayAttributeDescription : String := "Gateway of the interface"
def gatewayUCIOption : String := "gateway"
def ip6AssignAttribute : String := "ip6assign"
def ip6AssignAttributeDescription : String := "Delegate a prefix of given length to this interface"
def ip6AssignUCIOption : String := "ip6assign"
def ipAddressAttribute : String := "ipaddr"
def ipAddressAttributeDescription : String := "IP address of the interface"
def ipAddressUCIOption : String := "ipaddr"
def macAddressAttribute : String := "macaddr"
def macAddressAttributeDescription : String := "Override the MAC Address of this interface."
def macAddressUCIOption : String := "macaddr"
def metricAttribute : String := "metric"
def metricAttributeDescription : String := "Set the metric value for this interface for routing priority."
def metricUCIOption : String := "metric"
def mtuAttribute : String := "mtu"
def mtuAttributeDescription : String := "Override the default MTU on this interface."
def mtuUCIOption : String := "mtu"
def netmaskAttribute : String := "netmask"
def netmaskAttributeDescription : String := "Netmask of the interface"
def netmaskUCIOption : String := "netmask"
def peerDNSAttribute : String := "peerdns"
def peerDNSAttributeDescription : String := "Use DHCP-provided DNS servers."
def peerDNSUCIOption : String := "peerdns"
def protocolAttribute : String := "proto"
def protocolAttributeDescription : String := "The protocol type of the interface. Currently, only \"dhcp, and \"static\" are supported."
def protocolDHCP : String := "dhcp"
def protocolDHCPV6 : String := "dhcpv6"
def protocolStatic : String := "static"
def protocolUCIOption : String := "proto"
def requestingAddressAttribute : String := "reqaddress"
def requestingAddressAttributeDescription : String := "Behavior for requesting address. Can only be one of \"force\", \"try\", or \"none\"."
def requestingAddressForce : String := "force"
def requestingAddressNone : String := "none"
def requestingAddressTry : String := "try"
def requestingAddressUCIOption : String := "reqaddress"
def requestingPrefixAttribute : String := "reqprefix"
def requestingPrefixAttributeDescription : String := "Behavior for requesting prefixes. Currently, only \"auto\" is supported."
def requestingPrefixAuto : String := "auto"
def requestingPrefixUCIOption : String := "reqprefix"
def ipv4AddressesAttribute : String := "ipv4_addresses"
def ipv4AddressesAttributeDescription : String := "IPv4 addresses assigned to the interface"
def ipv4AddressesUCIOption : String := "ipv4-address"
def upAttribute : String := "up"
def upAttributeDescription : String := "Whether the interface is up"
def upUCIOption : String := "up"
def pendingAttribute : String := "pending"
def pendingAttributeDescription : String := "Whether the interface is pending"
def pendingUCIOption : String := "pending"
def availableAttribute : String := "available"
def availableAttributeDescription : String := "Whether the interface is available"
def availableUCIOption : String := "available"
def autostartAttribute : String := "autostart"
def autostartAttributeDescription : String := "Whether the interface starts automatically"
def autostartUCIOption : String := "autostart"
def dynamicAttribute : String := "dynamic"
def dynamicAttributeDescription : String := "Whether the interface is dynamically created"
def dynamicUCIOption : String := "dynamic"
def uptimeAttribute : String := "uptime"
def uptimeAttributeDescription : String := "Time since the interface was brought up"
def uptimeUCIOption : String := "uptime"
def l3DeviceAttribute : String := "l3_device"
def l3DeviceAttributeDescription : String := "Name of the layer 3 device"
def l3DeviceUCIOption : String := "l3_device"
def ifnameAttribute : String := "ifname"
def ifnameAttributeDescription : String := "Name of the interface"
def ifnameUCIOption : String := "ifname"
def updatedAttribute : String := "updated"
def updatedAttributeDescription : String := "Last update time"
def updatedUCIOption : String := "updated"
def dnsMetricAttribute : String := "dns_metric"
def dnsMetricAttributeDescription : String := "DNS metric"
def dnsMetricUCIOption : String := "dns_metric"
def dnsServerAttribute : String := "dns_server"
def dnsServerAttributeDescription : String := "DNS servers provided by the interface"
def dnsServerUCIOption : String := "dns-server"
def dnsSearchAttribute : String := "dns_search"
def dnsSearchAttributeDescription : String := "DNS search domains"
def dnsSearchUCIOption : String := "dns-search"
def ipv6PrefixAttribute : String := "ipv6_prefix"
def ipv6PrefixAttributeDescription : String := "IPv6 prefixes assigned to the interface"
def ipv6PrefixUCIOption : String := "ipv6-prefix"
def ipv6PrefixAssignmentAttribute : String := "ipv6_prefix_assignment"
def ipv6PrefixAssignmentAttributeDescription : String := "IPv6 prefix assignments"
def ipv6PrefixAssignmentUCIOption : String := "ipv6-prefix-assignment"
def routeAttribute : String := "route"
def routeAttributeDescription : String := "Routes associated with the interface"
def routeUCIOption : String := "route"
def errorsAttribute : String := "errors"
def errorsAttributeDescription : String := "Errors reported by the interface"
def errorsUCIOption : String := "errors"
def rxBytesAttribute : String := "rx_bytes"
def rxBytesAttributeDescription : String := "Number of received bytes"
def rxBytesUCIOption : String := "rx_bytes"
def txBytesAttribute : String := "tx_bytes"
def txBytesAttributeDescription : String := "Number of transmitted bytes"
def txBytesUCIOption : String := "tx_bytes"
def rxPacketsAttribute : String := "rx_packets"
def rxPacketsAttributeDescription : String := "Number of received packets"
def rxPacketsUCIOption : String := "rx_packets"
def txPacketsAttribute : String := "tx_packets"
def txPacketsAttributeDescription : String := "Number of transmitted packets"
def txPacketsUCIOption : String := "tx_packets"
def interfaceAttribute : String := "interface"
def interfaceAttributeDescription : String := "Interface name"
def interfaceUCIOption : String := "interface"
def schemaDescription : String := "A logic network."
def uciConfig : String := "network"
def uciType : String := "interface"

/-- The record `model` of package `networkinterface`. -/
structure model where
  BringUpOnBoot : types.Bool
  Device : types.String
  Disabled : types.Bool
  DNS : types.List
  Gateway : types.String
  Id : types.String
  IP6Assign : types.Int64
  IPAddress : types.String
  MacAddress : types.String
  MTU : types.Int64
  Netmask : types.String
  PeerDNS : types.Bool
  Protocol : types.String
  RequestingAddress : types.String
  RequestingPrefix : types.String
  Metric : types.Int64
  IPv4Addresses : types.List
  Up : types.Bool
  Pending : types.Bool
  Available : types.Bool
  Autostart : types.Bool
  Dynamic : types.Bool
  Uptime : types.Int64
  L3Device : types.String
  Ifname : types.String
  Updated : types.Int64
  DNSMetric : types.Int64
  DNSServer : types.List
  DNSSearch : types.List
  IPv6Prefix : types.List
  IPv6PrefixAssignment : types.List
  Route : types.List
  Data : types.Map
  Errors : types.List
  RxBytes : types.Int64
  TxBytes : types.Int64
  RxPackets : types.Int64
  TxPackets : types.Int64
  Interface : types.String

/-- The declaration of `model`, field by field: Go name, Go type, `tfsdk` tag. -/
def modelFields : List ModelField :=
  [ { name := "BringUpOnBoot", goType := .Bool, tfsdk := "auto" },
    { name := "Device", goType := .String, tfsdk := "device" },
    { name := "Disabled", goType := .Bool, tfsdk := "disabled" },
    { name := "DNS", goType := .List, tfsdk := "dns" },
    { name := "Gateway", goType := .String, tfsdk := "gateway" },
    { name := "Id", goType := .String, tfsdk := "id" },
    { name := "IP6Assign", goType := .Int64, tfsdk := "ip6assign" },
    { name := "IPAddress", goType := .String, tfsdk := "ipaddr" },
    { name := "MacAddress", goType := .String, tfsdk := "macaddr" },
    { name := "MTU", goType := .Int64, tfsdk := "mtu" },
    { name := "Netmask", goType := .String, tfsdk := "netmask" },
    { name := "PeerDNS", goType := .Bool, tfsdk := "peerdns" },
    { name := "Protocol", goType := .String, tfsdk := "proto" },
    { name := "RequestingAddress", goType := .String, tfsdk := "reqaddress" },
    { name := "RequestingPrefix", goType := .String, tfsdk := "reqprefix" },
    { name := "Metric", goType := .Int64, tfsdk := "metric" },
    { name := "IPv4Addresses", goType := .List, tfsdk := "ipv4_addresses" },
    { name := "Up", goType := .Bool, tfsdk := "up" },
    { name := "Pending", goType := .Bool, tfsdk := "pending" },
    { name := "Available", goType := .Bool, tfsdk := "available" },
    { name := "Autostart", goType := .Bool, tfsdk := "autostart" },
    { name := "Dynamic", goType := .Bool, tfsdk := "dynamic" },
    { name := "Uptime", goType := .Int64, tfsdk := "uptime" },
    { name := "L3Device", goType := .String, tfsdk := "l3_device" },
    { name := "Ifname", goType := .String, tfsdk := "ifname" },
    { name := "Updated", goType := .Int64, tfsdk := "updated" },
    { name := "DNSMetric", goType := .Int64, tfsdk := "dns_metric" },
    { name := "DNSServer", goType := .List, tfsdk := "dns_server" },
    { name := "DNSSearch", goType := .List, tfsdk := "dns_search" },
    { name := "IPv6Prefix", goType := .List, tfsdk := "ipv6_prefix" },
    { name := "IPv6PrefixAssignment", goType := .List, tfsdk := "ipv6_prefix_assignment" },
    { name := "Route", goType := .List, tfsdk := "route" },
    { name := "Data", goType := .Map, tfsdk := "data" },
    { name := "Errors", goType := .List, tfsdk := "errors" },
    { name := "RxBytes", goType := .Int64, tfsdk := "rx_bytes" },
    { name := "TxBytes", goType := .Int64, tfsdk := "tx_bytes" },
    { name := "RxPackets", goType := .Int64, tfsdk := "rx_packets" },
    { name := "TxPackets", goType := .Int64, tfsdk := "tx_packets" },
    { name := "Interface", goType := .String, tfsdk := "interface" } ]

def modelGetMetric (m : model) : types.Int64 := m.Metric
def modelGetBringUpOnBoot (m : model) : types.Bool := m.BringUpOnBoot
def modelGetDevice (m : model) : types.String := m.Device
def modelGetDisabled (m : model) : types.Bool := m.Disabled
def modelGetDNS (m : model) : types.List := m.DNS
def modelGetGateway (m : model) : types.String := m.Gateway
def modelGetId (m : model) : types.String := m.Id
def modelGetIP6Assign (m : model) : types.Int64 := m.IP6Assign
def modelGetIPAddress (m : model) : types.String := m.IPAddress
def modelGetMacAddress (m : model) : types.String := m.MacAddress
def modelGetMTU (m : model) : types.Int64 := m.MTU
def modelGetNetmask (m : model) : types.String := m.Netmask
def modelGetPeerDNS (m : model) : types.Bool := m.PeerDNS
def modelGetProtocol (m : model) : types.String := m.Protocol
def modelGetRequestingAddress (m : model) : types.String := m.RequestingAddress
def modelGetRequestingPrefix (m : model) : types.String := m.RequestingPrefix
def modelGetIPv4Addresses (m : model) : types.List := m.IPv4Addresses
def modelGetUp (m : model) : types.Bool := m.Up
def modelGetPending (m : model) : types.Bool := m.Pending
def modelGetAvailable (m : model) : types.Bool := m.Available
def modelGetAutostart (m : model) : types.Bool := m.Autostart
def modelGetDynamic (m : model) : types.Bool := m.Dynamic
def modelGetUptime (m : model) : types.Int64 := m.Uptime
def modelGetL3Device (m : model) : types.String := m.L3Device
def modelGetIfname (m : model) : types.String := m.Ifname
def modelGetUpdated (m : model) : types.Int64 := m.Updated
def modelGetDNSMetric (m : model) : types.Int64 := m.DNSMetric
def modelGetDNSServer (m : model) : types.List := m.DNSServer
def modelGetDNSSearch (m : model) : types.List := m.DNSSearch
def modelGetIPv6Prefix (m : model) : types.List := m.IPv6Prefix
def modelGetIPv6PrefixAssignment (m : model) : types.List := m.IPv6PrefixAssignment
def modelGetRoute (m : model) : types.List := m.Route
def modelGetData (m : model) : types.Map := m.Data
def modelGetErrors (m : model) : types.List := m.Errors
def modelGetRxBytes (m : model) : types.Int64 := m.RxBytes
def modelGetTxBytes (m : model) : types.Int64 := m.TxBytes
def modelGetRxPackets (m : model) : types.Int64 := m.RxPackets
def modelGetTxPackets (m : model) : types.Int64 := m.TxPackets
def modelGetInterface (m : model) : types.String := m.Interface

def modelSetMetric (m : model) (value : types.Int64) : model := { m with Metric := value }
def modelSetBringUpOnBoot (m : model) (value : types.Bool) : model := { m with BringUpOnBoot := value }
def modelSetDevice (m : model) (value : types.String) : model := { m with Device := value }
def modelSetDisabled (m : model) (value : types.Bool) : model := { m with Disabled := value }
def modelSetDNS (m : model) (value : types.List) : model := { m with DNS := value }
def modelSetGateway (m : model) (value : types.String) : model := { m with Gateway := value }
def modelSetId (m : model) (value : types.String) : model := { m with Id := value }
def modelSetIP6Assign (m : model) (value : types.Int64) : model := { m with IP6Assign := value }
def modelSetIPAddress (m : model) (value : types.String) : model := { m with IPAddress := value }
def modelSetMacAddress (m : model) (value : types.String) : model := { m with MacAddress := value }
def modelSetMTU (m : model) (value : types.Int64) : model := { m with MTU := value }
def modelSetNetmask (m : model) (value : types.String) : model := { m with Netmask := value }
def modelSetPeerDNS (m : model) (value : types.Bool) : model := { m with PeerDNS := value }
def modelSetProtocol (m : model) (value : types.String) : model := { m with Protocol := value }
def modelSetRequestingAddress (m : model) (value : types.String) : model := { m with RequestingAddress := value }
def modelSetRequestingPrefix (m : model) (value : types.String) : model := { m with RequestingPrefix := value }
def modelSetIPv4Addresses (m : model) (value : types.List) : model := { m with IPv4Addresses := value }
def modelSetUp (m : model) (value : types.Bool) : model := { m with Up := value }
def modelSetPending (m : model) (value : types.Bool) : model := { m with Pending := value }
def modelSetAvailable (m : model) (value : types.Bool) : model := { m with Available := value }
def modelSetAutostart (m : model) (value : types.Bool) : model := { m with Autostart := value }
def modelSetDynamic (m : model) (value : types.Bool) : model := { m with Dynamic := value }
def modelSetUptime (m : model) (value : types.Int64) : model := { m with Uptime := value }
def modelSetL3Device (m : model) (value : types.String) : model := { m with L3Device := value }
def modelSetIfname (m : model) (value : types.String) : model := { m with Ifname := value }
def modelSetUpdated (m : model) (value : types.Int64) : model := { m with Updated := value }
def modelSetDNSMetric (m : model) (value : types.Int64) : model := { m with DNSMetric := value }
def modelSetDNSServer (m : model) (value : types.List) : model := { m with DNSServer := value }
def modelSetDNSSearch (m : model) (value : types.List) : model := { m with DNSSearch := value }
def modelSetIPv6Prefix (m : model) (value : types.List) : model := { m with IPv6Prefix := value }
def modelSetIPv6PrefixAssignment (m : model) (value : types.List) : model := { m with IPv6PrefixAssignment := value }
def modelSetRoute (m : model) (value : types.List) : model := { m with Route := value }
def modelSetData (m : model) (value : types.Map) : model := { m with Data := value }
def modelSetErrors (m : model) (value : types.List) : model := { m with Errors := value }
def modelSetRxBytes (m : model) (value : types.Int64) : model := { m with RxBytes := value }
def modelSetTxBytes (m : model) (value : types.Int64) : model := { m with TxBytes := value }
def modelSetRxPackets (m : model) (value : types.Int64) : model := { m with RxPackets := value }
def modelSetTxPackets (m : model) (value : types.Int64) : model := { m with TxPackets := value }
def modelSetInterface (m : model) (value : types.String) : model := { m with Interface := value }

def bringUpOnBootSchemaAttribute : lucirpcglue.SchemaAttribute model :=
  .BoolSchemaAttribute
    { Description := bringUpOnBootAttributeDescription
      ReadResponse := some (lucirpcglue.ReadResponseOptionBool modelSetBringUpOnBoot bringUpOnBootAttribute bringUpOnBootUCIOption)
      ResourceExistence := .NoValidation
      UpsertRequest := some (lucirpcglue.UpsertRequestOptionBool modelGetBringUpOnBoot bringUpOnBootAttribute bringUpOnBootUCIOption) }

def deviceSchemaAttribute : lucirpcglue.SchemaAttribute model :=
  .StringSchemaAttribute
    { Description := deviceAttributeDescription
      ReadResponse := some (lucirpcglue.ReadResponseOptionString modelSetDevice deviceAttribute deviceUCIOption)
      ResourceExistence := .Required
      UpsertRequest := some (lucirpcglue.UpsertRequestOptionString modelGetDevice deviceAttribute deviceUCIOption) }

def disabledSchemaAttribute : lucirpcglue.SchemaAttribute model :=
  .BoolSchemaAttribute
    { Description := disabledAttributeDescription
      ReadResponse := some (lucirpcglue.ReadResponseOptionBool modelSetDisabled disabledAttribute disabledUCIOption)
      ResourceExistence := .NoValidation
      UpsertRequest := some (lucirpcglue.UpsertRequestOptionBool modelGetDisabled disabledAttribute disabledUCIOption) }

def dnsSchemaAttribute : lucirpcglue.SchemaAttribute model :=
  .ListStringSchemaAttribute
    { Description := dnsAttributeDescription
      ReadResponse := some (lucirpcglue.ReadResponseOptionListString modelSetDNS dnsAttribute dnsUCIOption)
      ResourceExistence := .NoValidation
      UpsertRequest := some (lucirpcglue.UpsertRequestOptionListString modelGetDNS dnsAttribute dnsUCIOption)
      Validators :=
        [ .SizeAtLeast 1,
          .AnyWithAllWarnings
            [ .RequiresAttributeEqualString (.MatchRoot protocolAttribute) protocolDHCP,
              .RequiresAttributeEqualString (.MatchRoot protocolAttribute) protocolDHCPV6,
              .RequiresAttributeEqualString (.MatchRoot protocolAttribute) protocolStatic ] ] }

def gatewaySchemaAttribute : lucirpcglue.SchemaAttribute model :=
  .StringSchemaAttribute
    { Description := gatewayAttributeDescription
      ReadResponse := some (lucirpcglue.ReadResponseOptionString modelSetGateway gatewayAttribute gatewayUCIOption)
      ResourceExistence := .NoValidation
      UpsertRequest := some (lucirpcglue.UpsertRequestOptionString modelGetGateway gatewayAttribute gatewayUCIOption)
      Validators :=
        [ .RegexMatches ipv4Regexp "must be a valid gateway (e.g. \"192.168.1.1\")",
          .RequiresAttributeEqualString (.MatchRoot protocolAttribute) protocolStatic ] }

def ip6AssignSchemaAttribute : lucirpcglue.SchemaAttribute model :=
  .Int64SchemaAttribute
    { Description := ip6AssignAttributeDescription
      ReadResponse := some (lucirpcglue.ReadResponseOptionInt64 modelSetIP6Assign ip6AssignAttribute ip6AssignUCIOption)
      ResourceExistence := .NoValidation
      UpsertRequest := some (lucirpcglue.UpsertRequestOptionInt64 modelGetIP6Assign ip6AssignAttribute ip6AssignUCIOption)
      Validators :=
        [ .Between 0 64,
          .RequiresAttributeEqualString (.MatchRoot protocolAttribute) protocolStatic ] }

def ipAddressSchemaAttribute : lucirpcglue.SchemaAttribute model :=
  .StringSchemaAttribute
    { Description := ipAddressAttributeDescription
      ReadResponse := some (lucirpcglue.ReadResponseOptionString modelSetIPAddress ipAddressAttribute ipAddressUCIOption)
      ResourceExistence := .NoValidation
      UpsertRequest := some (lucirpcglue.UpsertRequestOptionString modelGetIPAddress ipAddressAttribute ipAddressUCIOption)
      Validators :=
        [ .RegexMatches ipv4Regexp "must be a valid IP address (e.g. \"192.168.3.1\")" ] }

def macAddressSchemaAttribute : lucirpcglue.SchemaAttribute model :=
  .StringSchemaAttribute
    { Description := macAddressAttributeDescription
      ReadResponse := some (lucirpcglue.ReadResponseOptionString modelSetMacAddress macAddressAttribute macAddressUCIOption)
      ResourceExistence := .NoValidation
      UpsertRequest := some (lucirpcglue.UpsertRequestOptionString modelGetMacAddress macAddressAttribute macAddressUCIOption)
      Validators :=
        [ .RegexMatches macRegexp "must be a valid MAC address (e.g. \"12:34:56:78:90:ab\")" ] }

def metricSchemaAttribute : lucirpcglue.SchemaAttribute model :=
  .Int64SchemaAttribute
    { Description := metricAttributeDescription
      ReadResponse := some (lucirpcglue.ReadResponseOptionInt64 modelSetMetric metricAttribute metricUCIOption)
      ResourceExistence := .NoValidation
      UpsertRequest := some (lucirpcglue.UpsertRequestOptionInt64 modelGetMetric metricAttribute metricUCIOption)
      Validators :=
        [ .Between 0 4294967295 ] }

def mtuSchemaAttribute : lucirpcglue.SchemaAttribute model :=
  .Int64SchemaAttribute
    { Description := mtuAttributeDescription
      ReadResponse := some (lucirpcglue.ReadResponseOptionInt64 modelSetMTU mtuAttribute mtuUCIOption)
      ResourceExistence := .NoValidation
      UpsertRequest := some (lucirpcglue.UpsertRequestOptionInt64 modelGetMTU mtuAttribute mtuUCIOption)
      Validators :=
        [ .Between 576 9200 ] }

def netmaskSchemaAttribute : lucirpcglue.SchemaAttribute model :=
  .StringSchemaAttribute
    { Description := netmaskAttributeDescription
      ReadResponse := some (lucirpcglue.ReadResponseOptionString modelSetNetmask netmaskAttribute netmaskUCIOption)
      ResourceExistence := .NoValidation
      UpsertRequest := some (lucirpcglue.UpsertRequestOptionString modelGetNetmask netmaskAttribute netmaskUCIOption)
      Validators :=
        [ .RegexMatches ipv4Regexp "must be a valid netmask (e.g. \"255.255.255.0\")",
          .RequiresAttributeEqualString (.MatchRoot protocolAttribute) protocolStatic ] }

def peerDNSSchemaAttribute : lucirpcglue.SchemaAttribute model :=
  .BoolSchemaAttribute
    { Description := peerDNSAttributeDescription
      ReadResponse := some (lucirpcglue.ReadResponseOptionBool modelSetPeerDNS peerDNSAttribute peerDNSUCIOption)
      ResourceExistence := .NoValidation
      UpsertRequest := some (lucirpcglue.UpsertRequestOptionBool modelGetPeerDNS peerDNSAttribute peerDNSUCIOption)
      Validators :=
        [ .AnyBool
            [ .RequiresAttributeEqualString (.MatchRoot protocolAttribute) protocolDHCP,
              .RequiresAttributeEqualString (.MatchRoot protocolAttribute) protocolDHCPV6 ] ] }

def protocolSchemaAttribute : lucirpcglue.SchemaAttribute model :=
  .StringSchemaAttribute
    { Description := protocolAttributeDescription
      ReadResponse := some (lucirpcglue.ReadResponseOptionString modelSetProtocol protocolAttribute protocolUCIOption)
      ResourceExistence := .Required
      UpsertRequest := some (lucirpcglue.UpsertRequestOptionString modelGetProtocol protocolAttribute protocolUCIOption)
      Validators :=
        [ .OneOf [protocolDHCP, protocolDHCPV6, protocolStatic] ] }

def requestingAddressSchemaAttribute : lucirpcglue.SchemaAttribute model :=
  .StringSchemaAttribute
    { Description := requestingAddressAttributeDescription
      ReadResponse := some (lucirpcglue.ReadResponseOptionString modelSetRequestingAddress requestingAddressAttribute requestingAddressUCIOption)
      ResourceExistence := .NoValidation
      UpsertRequest := some (lucirpcglue.UpsertRequestOptionString modelGetRequestingAddress requestingAddressAttribute requestingAddressUCIOption)
      Validators :=
        [ .OneOf [requestingAddressForce, requestingAddressNone, requestingAddressTry],
          .RequiresAttributeEqualString (.MatchRoot protocolAttribute) protocolDHCPV6 ] }

def requestingPrefixSchemaAttribute : lucirpcglue.SchemaAttribute model :=
  .StringSchemaAttribute
    { Description := requestingPrefixAttributeDescription
      ReadResponse := some (lucirpcglue.ReadResponseOptionString modelSetRequestingPrefix requestingPrefixAttribute requestingPrefixUCIOption)
      ResourceExistence := .NoValidation
      UpsertRequest := some (lucirpcglue.UpsertRequestOptionString modelGetRequestingPrefix requestingPrefixAttribute requestingPrefixUCIOption)
      Validators :=
        [ .OneOf [requestingPrefixAuto],
          .RequiresAttributeEqualString (.MatchRoot protocolAttribute) protocolDHCPV6 ] }

def ipv4AddressesSchemaAttribute : lucirpcglue.SchemaAttribute model :=
  .ListStringSchemaAttribute
    { DataSourceExistence := some .ReadOnly
      Description := ipv4AddressesAttributeDescription
      ReadResponse := some (lucirpcglue.ReadResponseOptionListString modelSetIPv4Addresses ipv4AddressesAttribute ipv4AddressesUCIOption)
      ResourceExistence := .ReadOnly }

def upSchemaAttribute : lucirpcglue.SchemaAttribute model :=
  .BoolSchemaAttribute
    { DataSourceExistence := some .ReadOnly
      Description := upAttributeDescription
      ReadResponse := some (lucirpcglue.ReadResponseOptionBool modelSetUp upAttribute upUCIOption)
      ResourceExistence := .ReadOnly }

def pendingSchemaAttribute : lucirpcglue.SchemaAttribute model :=
  .BoolSchemaAttribute
    { DataSourceExistence := some .ReadOnly
      Description := pendingAttributeDescription
      ReadResponse := some (lucirpcglue.ReadResponseOptionBool modelSetPending pendingAttribute pendingUCIOption)
      ResourceExistence := .ReadOnly }

def availableSchemaAttribute : lucirpcglue.SchemaAttribute model :=
  .BoolSchemaAttribute
    { DataSourceExistence := some .ReadOnly
      Description := availableAttributeDescription
      ReadResponse := some (lucirpcglue.ReadResponseOptionBool modelSetAvailable availableAttribute availableUCIOption)
      ResourceExistence := .ReadOnly }

def autostartSchemaAttribute : lucirpcglue.SchemaAttribute model :=
  .BoolSchemaAttribute
    { DataSourceExistence := some .ReadOnly
      Description := autostartAttributeDescription
      ReadResponse := some (lucirpcglue.ReadResponseOptionBool modelSetAutostart autostartAttribute autostartUCIOption)
      ResourceExistence := .ReadOnly }

def dynamicSchemaAttribute : lucirpcglue.SchemaAttribute model :=
  .BoolSchemaAttribute
    { DataSourceExistence := some .ReadOnly
      Description := dynamicAttributeDescription
      ReadResponse := some (lucirpcglue.ReadResponseOptionBool modelSetDynamic dynamicAttribute dynamicUCIOption)
      ResourceExistence := .ReadOnly }

def uptimeSchemaAttribute : lucirpcglue.SchemaAttribute model :=
  .Int64SchemaAttribute
    { DataSourceExistence := some .ReadOnly
      Description := uptimeAttributeDescription
      ReadResponse := some (lucirpcglue.ReadResponseOptionInt64 modelSetUptime uptimeAttribute uptimeUCIOption)
      ResourceExistence := .ReadOnly }

def l3DeviceSchemaAttribute : lucirpcglue.SchemaAttribute model :=
  .StringSchemaAttribute
    { DataSourceExistence := some .ReadOnly
      Description := l3DeviceAttributeDescription
      ReadResponse := some (lucirpcglue.ReadResponseOptionString modelSetL3Device l3DeviceAttribute l3DeviceUCIOption)
      ResourceExistence := .ReadOnly }

def ifnameSchemaAttribute : lucirpcglue.SchemaAttribute model :=
  .StringSchemaAttribute
    { DataSourceExistence := some .ReadOnly
      Description := ifnameAttributeDescription
      ReadResponse := some (lucirpcglue.ReadResponseOptionString modelSetIfname ifnameAttribute ifnameUCIOption)
      ResourceExistence := .ReadOnly }

def updatedSchemaAttribute : lucirpcglue.SchemaAttribute model :=
  .Int64SchemaAttribute
    { DataSourceExistence := some .ReadOnly
      Description := updatedAttributeDescription
      ReadResponse := some (lucirpcglue.ReadResponseOptionInt64 modelSetUpdated updatedAttribute updatedUCIOption)
      ResourceExistence := .ReadOnly }

def dnsMetricSchemaAttribute : lucirpcglue.SchemaAttribute model :=
  .Int64SchemaAttribute
    { DataSourceExistence := some .ReadOnly
      Description := dnsMetricAttributeDescription
      ReadResponse := some (lucirpcglue.ReadResponseOptionInt64 modelSetDNSMetric dnsMetricAttribute dnsMetricUCIOption)
      ResourceExistence := .ReadOnly }

def dnsServerSchemaAttribute : lucirpcglue.SchemaAttribute model :=
  .ListStringSchemaAttribute
    { DataSourceExistence := some .ReadOnly
      Description := dnsServerAttributeDescription
      ReadResponse := some (lucirpcglue.ReadResponseOptionListString modelSetDNSServer dnsServerAttribute dnsServerUCIOption)
      ResourceExistence := .ReadOnly }

def dnsSearchSchemaAttribute : lucirpcglue.SchemaAttribute model :=
  .ListStringSchemaAttribute
    { DataSourceExistence := some .ReadOnly
      Description := dnsSearchAttributeDescription
      ReadResponse := some (lucirpcglue.ReadResponseOptionListString modelSetDNSSearch dnsSearchAttribute dnsSearchUCIOption)
      ResourceExistence := .ReadOnly }

def ipv6PrefixSchemaAttribute : lucirpcglue.SchemaAttribute model :=
  .ListStringSchemaAttribute
    { DataSourceExistence := some .ReadOnly
      Description := ipv6PrefixAttributeDescription
      ReadResponse := some (lucirpcglue.ReadResponseOptionListString modelSetIPv6Prefix ipv6PrefixAttribute ipv6PrefixUCIOption)
      ResourceExistence := .ReadOnly }

def ipv6PrefixAssignmentSchemaAttribute : lucirpcglue.SchemaAttribute model :=
  .ListStringSchemaAttribute
    { DataSourceExistence := some .ReadOnly
      Description := ipv6PrefixAssignmentAttributeDescription
      ReadResponse := some (lucirpcglue.ReadResponseOptionListString modelSetIPv6PrefixAssignment ipv6PrefixAssignmentAttribute ipv6PrefixAssignmentUCIOption)
      ResourceExistence := .ReadOnly }

def routeSchemaAttribute : lucirpcglue.SchemaAttribute model :=
  .ListStringSchemaAttribute
    { DataSourceExistence := some .ReadOnly
      Description := routeAttributeDescription
      ReadResponse := some (lucirpcglue.ReadResponseOptionListString modelSetRoute routeAttribute routeUCIOption)
      ResourceExistence := .ReadOnly }

def errorsSchemaAttribute : lucirpcglue.SchemaAttribute model :=
  .ListStringSchemaAttribute
    { DataSourceExistence := some .ReadOnly
      Description := errorsAttributeDescription
      ReadResponse := some (lucirpcglue.ReadResponseOptionListString modelSetErrors errorsAttribute errorsUCIOption)
      ResourceExistence := .ReadOnly }

def rxBytesSchemaAttribute : lucirpcglue.SchemaAttribute model :=
  .Int64SchemaAttribute
    { DataSourceExistence := some .ReadOnly
      Description := rxBytesAttributeDescription
      ReadResponse := some (lucirpcglue.ReadResponseOptionInt64 modelSetRxBytes rxBytesAttribute rxBytesUCIOption)
      ResourceExistence := .ReadOnly }

def txBytesSchemaAttribute : lucirpcglue.SchemaAttribute model :=
  .Int64SchemaAttribute
    { DataSourceExistence := some .ReadOnly
      Description := txBytesAttributeDescription
      ReadResponse := some (lucirpcglue.ReadResponseOptionInt64 modelSetTxBytes txBytesAttribute txBytesUCIOption)
      ResourceExistence := .ReadOnly }

def rxPacketsSchemaAttribute : lucirpcglue.SchemaAttribute model :=
  .Int64SchemaAttribute
    { DataSourceExistence := some .ReadOnly
      Description := rxPacketsAttributeDescription
      ReadResponse := some (lucirpcglue.ReadResponseOptionInt64 modelSetRxPackets rxPacketsAttribute rxPacketsUCIOption)
      ResourceExistence := .ReadOnly }

def txPacketsSchemaAttribute : lucirpcglue.SchemaAttribute model :=
  .Int64SchemaAttribute
    { DataSourceExistence := some .ReadOnly
      Description := txPacketsAttributeDescription
      ReadResponse := some (lucirpcglue.ReadResponseOptionInt64 modelSetTxPackets txPacketsAttribute txPacketsUCIOption)
      ResourceExistence := .ReadOnly }

def interfaceSchemaAttribute : lucirpcglue.SchemaAttribute model :=
  .StringSchemaAttribute
    { DataSourceExistence := some .ReadOnly
      Description := interfaceAttributeDescription
      ReadResponse := some (lucirpcglue.ReadResponseOptionString modelSetInterface interfaceAttribute interfaceUCIOption)
      ResourceExistence := .ReadOnly }

def schemaAttributes : List (String × lucirpcglue.SchemaAttribute model) :=
  [ (bringUpOnBootAttribute, bringUpOnBootSchemaAttribute),
    (deviceAttribute, deviceSchemaAttribute),
    (disabledAttribute, disabledSchemaAttribute),
    (dnsAttribute, dnsSchemaAttribute),
    (gatewayAttribute, gatewaySchemaAttribute),
    (ip6AssignAttribute, ip6AssignSchemaAttribute),
    (ipAddressAttribute, ipAddressSchemaAttribute),
    (macAddressAttribute, macAddressSchemaAttribute),
    (mtuAttribute, mtuSchemaAttribute),
    (metricAttribute, metricSchemaAttribute),
    (netmaskAttribute, netmaskSchemaAttribute),
    (peerDNSAttribute, peerDNSSchemaAttribute),
    (protocolAttribute, protocolSchemaAttribute),
    (requestingAddressAttribute, requestingAddressSchemaAttribute),
    (requestingPrefixAttribute, requestingPrefixSchemaAttribute),
    (ipv4AddressesAttribute, ipv4AddressesSchemaAttribute),
    (upAttribute, upSchemaAttribute),
    (pendingAttribute, pendingSchemaAttribute),
    (availableAttribute, availableSchemaAttribute),
    (autostartAttribute, autostartSchemaAttribute),
    (dynamicAttribute, dynamicSchemaAttribute),
    (uptimeAttribute, uptimeSchemaAttribute),
    (l3DeviceAttribute, l3DeviceSchemaAttribute),
    (ifnameAttribute, ifnameSchemaAttribute),
    (updatedAttribute, updatedSchemaAttribute),
    (dnsMetricAttribute, dnsMetricSchemaAttribute),
    (dnsServerAttribute, dnsServerSchemaAttribute),
    (dnsSearchAttribute, dnsSearchSchemaAttribute),
    (ipv6PrefixAttribute, ipv6PrefixSchemaAttribute),
    (ipv6PrefixAssignmentAttribute, ipv6PrefixAssignmentSchemaAttribute),
    (routeAttribute, routeSchemaAttribute),
    (errorsAttribute, errorsSchemaAttribute),
    (rxBytesAttribute, rxBytesSchemaAttribute),
    (txBytesAttribute, txBytesSchemaAttribute),
    (rxPacketsAttribute, rxPacketsSchemaAttribute),
    (txPacketsAttribute, txPacketsSchemaAttribute),
    (interfaceAttribute, interfaceSchemaAttribute),
    (lucirpcglue.IdAttribute, lucirpcglue.IdSchemaAttribute modelGetId modelSetId) ]

def NewDataSource : lucirpcglue.Registration model :=
  lucirpcglue.NewDataSource modelGetId schemaAttributes schemaDescription uciConfig uciType

def NewResource : lucirpcglue.Registration model :=
  lucirpcglue.NewResource modelGetId schemaAttributes schemaDescription uciConfig uciType

end networkinterface

/-! ## Vocabulary of the properties -/

/-- The language of a regular expression, `n` times in sequence. -/
def RE.Pow (L : List Char → Prop) : Nat → List Char → Prop
  | 0, w => w = []
  | n + 1, w => ∃ u v, w = u ++ v ∧ L u ∧ RE.Pow L n v

/-- The language of a regular expression: the texts it matches from end to end. -/
def RE.Matches : RE → List Char → Prop
  | .cls p, w => ∃ c, w = [c] ∧ p.test c = true
  | .cat a b, w => ∃ u v, w = u ++ v ∧ a.Matches u ∧ b.Matches v
  | .rep r lo hi, w => ∃ n, lo ≤ n ∧ n ≤ hi ∧ RE.Pow r.Matches n w

/-- The fields of a text, cut at every occurrence of the separator (as `strings.Split`). -/
def fields (sep : Char) : List Char → List (List Char)
  | [] => [[]]
  | c :: cs =>
      if c = sep then [] :: fields sep cs
      else
        match fields sep cs with
        | [] => [[c]]
        | f :: fs => (c :: f) :: fs

/-- A decimal field: one or more decimal digits. -/
def isDecimalField (f : List Char) : Bool :=
  !f.isEmpty && f.all (CharClass.test .digit)

/-- A field of one to three decimal digits. -/
def isShortDecimalField (f : List Char) : Bool :=
  decide (1 ≤ f.length) && decide (f.length ≤ 3) && f.all (CharClass.test .digit)

/-- The number a decimal field denotes. -/
def decimalValue (f : List Char) : Nat :=
  f.foldl (fun n c => 10 * n + (c.toNat - '0'.toNat)) 0

/-- A valid IPv4 address in dotted-decimal form: exactly four decimal fields, each denoting
a number in 0..255, separated by the character `.`. -/
def validIPv4 (s : String) : Bool :=
  (fields '.' s.toList).length == 4 &&
    (fields '.' s.toList).all (fun f => isDecimalField f && decide (decimalValue f ≤ 255))

/-- The 32-bit number of a dotted-decimal text. -/
def ipv4Value (s : String) : Nat :=
  (fields '.' s.toList).foldl (fun n f => 256 * n + decimalValue f) 0

/-- A valid netmask: a valid dotted-decimal IPv4 value whose 32-bit binary form is a run of
ones followed by a run of zeros. -/
def validNetmask (s : String) : Bool :=
  validIPv4 s && (List.range 33).any (fun k => ipv4Value s == 2 ^ 32 - 2 ^ k)

/-- Is the text in dotted form: exactly four fields when cut at `.`. -/
def isDotted (s : String) : Bool :=
  (fields '.' s.toList).length == 4

/-- The content of a declared table entry that does not depend on the model: the package,
the key, the type of the values and the validators. -/
structure Entry where
  table : String
  key : String
  fieldType : FieldType
  Validators : List Validator

/-- The declared entries of one table (the `id` entry, built outside the sources, is not one
of them). -/
def entriesOf {M : Type} (pkg : String)
    (table : List (String × lucirpcglue.SchemaAttribute M)) : List Entry :=
  (table.filter (fun e => e.2.isDeclared)).map
    (fun e => { table := pkg, key := e.1, fieldType := e.2.fieldType,
                Validators := e.2.Validators })

/-- The declared entries of the six attribute tables. -/
def declaredEntries : List Entry :=
  entriesOf "forwarding" forwarding.schemaAttributes ++
  entriesOf "redirect" redirect.schemaAttributes ++
  entriesOf "rule" rule.schemaAttributes ++
  entriesOf "zone" zone.schemaAttributes ++
  entriesOf "bridgevlan" bridgevlan.schemaAttributes ++
  entriesOf "networkinterface" networkinterface.schemaAttributes

/-- The validators of attribute `attr` of the resource `resource` (none for a name that no
table declares). -/
def validatorsOf (resource attr : String) : List Validator :=
  match declaredEntries.find? (fun e => e.table == resource && e.key == attr) with
  | some e => e.Validators
  | none => []

/-- The attributes whose validators read the attribute `proto` of the configuration. -/
def protoDependent : List (String × String) :=
  [ ("networkinterface", "dns"), ("networkinterface", "gateway"),
    ("networkinterface", "ip6assign"), ("networkinterface", "netmask"),
    ("networkinterface", "peerdns"), ("networkinterface", "reqaddress"),
    ("networkinterface", "reqprefix") ]

/-- Is the validator a requirement on the value of the attribute `proto`. -/
def requiresProto : Validator → Bool
  | .RequiresAttributeEqualString (.MatchRoot a) _ => a == "proto"
  | _ => false

/-- The validators found in the tables, by type of attribute: on strings a pattern, an
enumeration or a requirement on `proto`; on lists `SizeAtLeast(1)` or `AnyWithAllWarnings`
of requirements on `proto`; on integers `Between`, `Any()` without argument or a requirement
on `proto`; on booleans `AnyBool` of requirements on `proto`. -/
def validatorAllowed : FieldType → Validator → Bool
  | .String, v => v.isRegexMatches || v.isOneOf || requiresProto v
  | .List, .SizeAtLeast n => n == 1
  | .List, .AnyWithAllWarnings vs => vs.all requiresProto
  | .Int64, .Between _ _ => true
  | .Int64, .Any vs => vs.isEmpty
  | .Int64, v => requiresProto v
  | .Bool, .AnyBool vs => vs.all requiresProto
  | _, _ => false

/-- Is the type one of: string, 64-bit integer, boolean, list of strings. -/
def isSpecType (t : FieldType) : Bool :=
  t == .String || t == .Int64 || t == .Bool || t == .List

/-- The six model records. -/
def allModels : List (String × List ModelField) :=
  [ ("forwarding", forwarding.modelFields), ("redirect", redirect.modelFields),
    ("rule", rule.modelFields), ("zone", zone.modelFields),
    ("bridgevlan", bridgevlan.modelFields),
    ("networkinterface", networkinterface.modelFields) ]

/-- A static network interface with a gateway. -/
def staticGatewayConfig : Config :=
  [ ("device", .StringValue "eth0"), ("proto", .StringValue "static"),
    ("gateway", .StringValue "192.168.1.1") ]

/-- The same interface and gateway under DHCP. -/
def dhcpGatewayConfig : Config :=
  [ ("device", .StringValue "eth0"), ("proto", .StringValue "dhcp"),
    ("gateway", .StringValue "192.168.1.1") ]

/-- A static interface with a gateway and an MTU. -/
def staticGatewayMtuConfig : Config :=
  [ ("device", .StringValue "eth1"), ("proto", .StringValue "static"),
    ("gateway", .StringValue "192.168.1.1"), ("mtu", .Int64Value 1500) ]

/-- The resource of `createAndReadResource` in `zone_acceptance_test.go`. -/
def zone.createAndReadResource : Config :=
  [ ("name", .StringValue "testing"), ("forward", .StringValue "ACCEPT"),
    ("input", .StringValue "ACCEPT"), ("output", .StringValue "ACCEPT") ]

/-- The resource of `createAndReadResource` in `redirect_acceptance_test.go`. -/
def redirect.createAndReadResource : Config :=
  [ ("id", .StringValue "testing"), ("name", .StringValue "example-redirect"),
    ("src", .StringValue "wan"), ("src_dport", .Int64Value 8080),
    ("dest", .StringValue "lan"), ("dest_port", .Int64Value 8080),
    ("target", .StringValue "DNAT"), ("family", .StringValue "ipv4"),
    ("proto", .ListValue ["udp", "tcp"]) ]

/-- The resource of `createAndReadResource` in `forwarding_acceptance_test.go`. -/
def forwarding.createAndReadResource : Config :=
  [ ("name", .StringValue "testing"), ("src", .StringValue "wan"),
    ("dest", .StringValue "lan") ]

/-- The resource of `createAndReadResource` in `rule_acceptance_test.go`. -/
def rule.createAndReadResource : Config :=
  [ ("id", .StringValue "testing"), ("name", .StringValue "example-rule"),
    ("src", .StringValue "wan"), ("dest_port", .Int64Value 8080),
    ("target", .StringValue "DROP"), ("family", .StringValue "ipv4"),
    ("proto", .ListValue ["udp", "tcp"]) ]

/-- The keys of the declared entries of a table that carry the given presence rule for
resources. -/
def keysWithExistence {M : Type} (table : List (String × lucirpcglue.SchemaAttribute M))
    (rule : lucirpcglue.AttributeExistence) : List String :=
  (table.filter (fun e => e.2.ResourceExistence == some rule)).map Prod.fst

/-- A hexadecimal digit, in upper or lower case. -/
def isHexDigit (c : Char) : Bool :=
  "0123456789abcdefABCDEF".toList.contains c

/-- A group of exactly two hexadecimal digits. -/
def isHexPair (g : List Char) : Bool :=
  g.length == 2 && g.all isHexDigit

/-- The text made of the fields with the separator between consecutive ones. -/
def joinFields (sep : Char) : List (List Char) → List Char
  | [] => []
  | [f] => f
  | f :: g :: fs => f ++ sep :: joinFields sep (g :: fs)

/-- A valid colon-separated MAC address: exactly 17 characters forming six groups of two
hexadecimal digits with a `:` between consecutive groups. -/
def isMacAddress (s : String) : Bool :=
  s.toList.length == 17 && (fields ':' s.toList).length == 6 &&
    (fields ':' s.toList).all isHexPair

namespace lucirpcglue

/-- Modelled from the spec: `lucirpcglue.UpsertRequestOptionString`, `...Int64`, `...Bool`
and `...ListString` are not among the sources; as the claim words it, the binding writes
`options[option] := get(model)`. The option map gives every option name its value (null for
an option the section lacks). -/
def UpsertRequest.write {M V : Type} (u : UpsertRequest M V) (m : M)
    (options : String → V) : String → V :=
  fun k => if k = u.uciOption then u.get m else options k

/-- Modelled from the spec: `lucirpcglue.ReadResponseOptionString`, `...Int64`, `...Bool` and
`...ListString` are not among the sources; as the claim words it, the binding reads
`set(model, options[option])`. -/
def ReadResponse.read {M V : Type} (r : ReadResponse M V) (options : String → V)
    (m : M) : M :=
  r.set m (options r.uciOption)

/-- The bindings of an attribute that has both agree: they name the same attribute and the
same UCI option; the setter writes exactly the field the getter reads (what is set is what
is got, setting what is got changes nothing, and a second setting overrides the first); and
writing the attribute of a model `m` into an option map, then reading the map into any model
`m'`, gives `m'` the value the attribute has in `m`. -/
def Attribute.BindingsAgree {M V : Type} (a : Attribute M V) : Prop :=
  match a.ReadResponse, a.UpsertRequest with
  | some r, some u =>
      r.attributeName = u.attributeName ∧ r.uciOption = u.uciOption ∧
      (∀ m v, u.get (r.set m v) = v) ∧
      (∀ m, r.set m (u.get m) = m) ∧
      (∀ m v w, r.set (r.set m v) w = r.set m w) ∧
      (∀ m m' options, u.get (r.read (u.write m options) m') = u.get m)
  | _, _ => True

/-- The bindings of a table entry agree (nothing is asked of the `id` entry, whose bindings
are built outside the sources). -/
def SchemaAttribute.BindingsAgree {M : Type} : SchemaAttribute M → Prop
  | .StringSchemaAttribute a => a.BindingsAgree
  | .Int64SchemaAttribute a => a.BindingsAgree
  | .BoolSchemaAttribute a => a.BindingsAgree
  | .ListStringSchemaAttribute a => a.BindingsAgree
  | .IdSchemaAttribute _ _ => True

/-- Does the entry declare both a `ReadResponse` and an `UpsertRequest`. -/
def SchemaAttribute.hasBothBindings {M : Type} : SchemaAttribute M → Bool
  | .StringSchemaAttribute a => a.ReadResponse.isSome && a.UpsertRequest.isSome
  | .Int64SchemaAttribute a => a.ReadResponse.isSome && a.UpsertRequest.isSome
  | .BoolSchemaAttribute a => a.ReadResponse.isSome && a.UpsertRequest.isSome
  | .ListStringSchemaAttribute a => a.ReadResponse.isSome && a.UpsertRequest.isSome
  | .IdSchemaAttribute _ _ => false

/-- The keys of the entries of a table that declare both bindings. -/
def writableKeys {M : Type} (table : List (String × SchemaAttribute M)) : List String :=
  (table.filter (fun e => e.2.hasBothBindings)).map Prod.fst

/-- The identifier of a package is wired as follows: the model has a string field `Id`
tagged `id`, the table has under the `id` key the entry built from the getter and the setter,
and the getter is the one given to `NewDataSource` and to `NewResource`. -/
def IdentifierWired {M : Type} (fields : List ModelField)
    (table : List (String × SchemaAttribute M)) (getId : M → types.String)
    (setId : M → types.String → M) (dataSource resource : Registration M) : Prop :=
  ({ name := "Id", goType := .String, tfsdk := "id" } : ModelField) ∈ fields ∧
  (fields.filter (fun f => f.tfsdk == "id")).length = 1 ∧
  table.lookup IdAttribute = some (IdSchemaAttribute getId setId) ∧
  dataSource.getId = getId ∧ resource.getId = getId

end lucirpcglue

/-- A rule model that holds the destination port 8080 only. -/
def rule.portModel : rule.model :=
  { Id := none, Src := none, SrcPort := none, SrcIp := none, Dest := none,
    DestPort := some 8080, DestIp := none, Target := none, Name := none, Family := none,
    Protocol := none }

/-- A rule model that holds the name `other` only. -/
def rule.namedModel : rule.model :=
  { Id := none, Src := none, SrcPort := none, SrcIp := none, Dest := none,
    DestPort := none, DestIp := none, Target := none, Name := some "other", Family := none,
    Protocol := none }

/-- The arguments of a call `client.CreateSection(ctx, config, sectionType, name, options)`
of a data-source acceptance test: the UCI config, the section type and the section name (the
options are left out). -/
structure CreateSectionCall where
  config : String
  sectionType : String
  name : String
  deriving DecidableEq

/-- The call of `TestDataSourceAcceptance` in `zone_acceptance_test.go`. -/
def zone.TestDataSourceAcceptance : CreateSectionCall :=
  { config := "firwall", sectionType := "zone", name := "testing" }

/-- The call of `TestDataSourceAcceptance` in `rule_acceptance_test.go`. -/
def rule.TestDataSourceAcceptance : CreateSectionCall :=
  { config := "firwall", sectionType := "rule", name := "testing" }

/-- The call of `TestDataSourceAcceptance` in `redirect_acceptance_test.go`. -/
def redirect.TestDataSourceAcceptance : CreateSectionCall :=
  { config := "firwall", sectionType := "redirect", name := "testing" }

/-- The call of `TestDataSourceAcceptance` in `forwarding_acceptance_test.go`. -/
def forwarding.TestDataSourceAcceptance : CreateSectionCall :=
  { config := "firwall", sectionType := "forwarding", name := "testing" }

/-- The call of `TestDataSourceAcceptance` in `bridge_vlan_acceptance_test.go`. -/
def bridgevlan.TestDataSourceAcceptance : CreateSectionCall :=
  { config := "network", sectionType := "bridge-vlan", name := "br_testing" }

/-- The (UCI config, section type) pair a package passes to `NewDataSource`. -/
def lucirpcglue.Registration.sectionPair {M : Type} (r : lucirpcglue.Registration M) :
    String × String :=
  (r.uciConfig, r.uciType)

/-- The (config, type) pair under which a test creates its section. -/
def CreateSectionCall.sectionPair (c : CreateSectionCall) : String × String :=
  (c.config, c.sectionType)

/-! ## The matcher computes the language -/

theorem RE.mem_repRun {step : List Char → List (List Char)} {L : List Char → Prop}
    (hstep : ∀ s t, t ∈ step s ↔ ∃ w, s = w ++ t ∧ L w) :
    ∀ (hi lo : Nat) (s t : List Char),
      t ∈ RE.repRun step lo hi s ↔ ∃ n w, lo ≤ n ∧ n ≤ hi ∧ s = w ++ t ∧ RE.Pow L n w := by
  intro hi
  induction hi with
  | zero =>
    intro lo s t
    constructor
    · intro h
      by_cases hlo : lo = 0
      · subst hlo
        simp only [RE.repRun, if_true, List.mem_singleton] at h
        exact ⟨0, [], Nat.le_refl 0, Nat.le_refl 0, by simp [h], rfl⟩
      · simp [RE.repRun, hlo] at h
    · rintro ⟨n, w, h1, h2, h3, h4⟩
      have hn : n = 0 := Nat.le_zero.mp h2
      subst hn
      have hlo : lo = 0 := Nat.le_zero.mp h1
      subst hlo
      have hw : w = [] := h4
      subst hw
      simp [RE.repRun, h3]
  | succ hi ih =>
    intro lo s t
    simp only [RE.repRun, List.mem_append, List.mem_flatMap]
    constructor
    · rintro (h | ⟨s1, hs1, ht⟩)
      · by_cases hlo : lo = 0
        · subst hlo
          simp only [if_true, List.mem_singleton] at h
          exact ⟨0, [], Nat.le_refl 0, Nat.zero_le _, by simp [h], rfl⟩
        · simp [hlo] at h
      · obtain ⟨u, hu, hLu⟩ := (hstep s s1).mp hs1
        obtain ⟨n, w, h1, h2, h3, h4⟩ := (ih (lo - 1) s1 t).mp ht
        refine ⟨n + 1, u ++ w, by omega, by omega, ?_, u, w, rfl, hLu, h4⟩
        rw [hu, h3, List.append_assoc]
    · rintro ⟨n, w, h1, h2, h3, h4⟩
      cases n with
      | zero =>
        left
        have hlo : lo = 0 := Nat.le_zero.mp h1
        subst hlo
        have hw : w = [] := h4
        subst hw
        simp [h3]
      | succ n =>
        right
        obtain ⟨u, v, hw, hLu, hv⟩ := h4
        refine ⟨v ++ t, (hstep s (v ++ t)).mpr ⟨u, ?_, hLu⟩, ?_⟩
        · rw [h3, hw, List.append_assoc]
        · exact (ih (lo - 1) (v ++ t) t).mpr ⟨n, v, by omega, by omega, rfl, hv⟩

theorem RE.mem_run : ∀ (re : RE) (s t : List Char),
    t ∈ re.run s ↔ ∃ w, s = w ++ t ∧ re.Matches w
  | .cls p, s, t => by
    cases s with
    | nil =>
      simp only [RE.run, RE.Matches, List.not_mem_nil, false_iff]
      rintro ⟨w, hw, c, hc, _⟩
      subst hc
      simp at hw
    | cons c cs =>
      simp only [RE.run, RE.Matches]
      constructor
      · intro h
        by_cases hp : p.test c = true
        · simp only [hp, if_true, List.mem_singleton] at h
          exact ⟨[c], by simp [h], c, rfl, hp⟩
        · simp [hp] at h
      · rintro ⟨w, hw, d, hd, hp⟩
        subst hd
        simp only [List.singleton_append, List.cons.injEq] at hw
        obtain ⟨h1, h2⟩ := hw
        subst h1
        simp [hp, h2]
  | .cat a b, s, t => by
    simp only [RE.run, RE.Matches, List.mem_flatMap]
    constructor
    · rintro ⟨s1, hs1, ht⟩
      obtain ⟨u, hu, hau⟩ := (RE.mem_run a s s1).mp hs1
      obtain ⟨v, hv, hbv⟩ := (RE.mem_run b s1 t).mp ht
      exact ⟨u ++ v, by rw [hu, hv, List.append_assoc], u, v, rfl, hau, hbv⟩
    · rintro ⟨w, hw, u, v, huv, hau, hbv⟩
      refine ⟨v ++ t, (RE.mem_run a s (v ++ t)).mpr ⟨u, ?_, hau⟩,
        (RE.mem_run b (v ++ t) t).mpr ⟨v, rfl, hbv⟩⟩
      rw [hw, huv, List.append_assoc]
  | .rep r lo hi, s, t => by
    simp only [RE.run, RE.Matches]
    rw [RE.mem_repRun (L := r.Matches) (fun s t => RE.mem_run r s t) hi lo s t]
    constructor
    · rintro ⟨n, w, h1, h2, h3, h4⟩
      exact ⟨w, h3, n, h1, h2, h4⟩
    · rintro ⟨w, h3, n, h1, h2, h4⟩
      exact ⟨n, w, h1, h2, h3, h4⟩

theorem Regexp.matchString_iff_matches (re : Regexp) (h1 : re.anchorStart = true)
    (h2 : re.anchorEnd = true) (s : String) :
    re.MatchString s = true ↔ re.body.Matches s.toList := by
  simp only [Regexp.MatchString, h1, if_true, Regexp.matchHere, h2, Bool.not_true,
    Bool.false_or, List.any_eq_true]
  constructor
  · rintro ⟨t, ht, hnil⟩
    have ht0 : t = [] := List.isEmpty_iff.mp hnil
    subst ht0
    obtain ⟨w, hw, hm⟩ := (RE.mem_run re.body s.toList []).mp ht
    rw [hw, List.append_nil]
    exact hm
  · intro hm
    exact ⟨[], (RE.mem_run re.body s.toList []).mpr ⟨s.toList, by simp, hm⟩, rfl⟩

theorem RE.pow_cls (p : CharClass) : ∀ (n : Nat) (w : List Char),
    RE.Pow (RE.cls p).Matches n w ↔ w.length = n ∧ ∀ c ∈ w, p.test c = true := by
  intro n
  induction n with
  | zero =>
    intro w
    simp only [RE.Pow]
    constructor
    · intro h
      subst h
      simp
    · rintro ⟨h, _⟩
      exact List.length_eq_zero.mp h
  | succ n ih =>
    intro w
    simp only [RE.Pow, RE.Matches]
    constructor
    · rintro ⟨u, v, hw, ⟨c, hu, hc⟩, hv⟩
      obtain ⟨hlen, hall⟩ := (ih v).mp hv
      subst hu hw
      refine ⟨by simp [hlen], ?_⟩
      intro d hd
      simp only [List.singleton_append, List.mem_cons] at hd
      rcases hd with hd | hd
      · rw [hd]; exact hc
      · exact hall d hd
    · rintro ⟨hlen, hall⟩
      cases w with
      | nil => simp at hlen
      | cons c cs =>
        refine ⟨[c], cs, rfl, ⟨c, rfl, hall c (List.mem_cons_self c cs)⟩, (ih cs).mpr ⟨?_, ?_⟩⟩
        · simpa using hlen
        · intro d hd
          exact hall d (List.mem_cons_of_mem c hd)

theorem RE.matches_rep_cls (p : CharClass) (lo hi : Nat) (w : List Char) :
    (RE.rep (.cls p) lo hi).Matches w ↔
      lo ≤ w.length ∧ w.length ≤ hi ∧ ∀ c ∈ w, p.test c = true := by
  simp only [RE.Matches]
  constructor
  · rintro ⟨n, h1, h2, h3⟩
    obtain ⟨hlen, hall⟩ := (RE.pow_cls p n w).mp h3
    exact ⟨by omega, by omega, hall⟩
  · rintro ⟨h1, h2, hall⟩
    exact ⟨w.length, h1, h2, (RE.pow_cls p w.length w).mpr ⟨rfl, hall⟩⟩

theorem isShortDecimalField_iff (f : List Char) :
    isShortDecimalField f = true ↔
      1 ≤ f.length ∧ f.length ≤ 3 ∧ ∀ c ∈ f, CharClass.test .digit c = true := by
  simp [isShortDecimalField, and_assoc]

/-- The texts the body of `ipv4Regexp` matches: four groups of one to three digits, with one
character other than a newline after each of the first three. -/
theorem ipv4Regexp_matches_iff (w : List Char) :
    ipv4Regexp.body.Matches w ↔
      ∃ d1 c1 d2 c2 d3 c3 d4, w = d1 ++ c1 :: (d2 ++ c2 :: (d3 ++ c3 :: d4)) ∧
        isShortDecimalField d1 = true ∧ isShortDecimalField d2 = true ∧
        isShortDecimalField d3 = true ∧ isShortDecimalField d4 = true ∧
        c1 ≠ '\n' ∧ c2 ≠ '\n' ∧ c3 ≠ '\n' := by
  have hgrp : ∀ g : List Char,
      (RE.cat (.rep (.cls .digit) 1 3) (.cls .anyCharNotNL)).Matches g ↔
        ∃ d c, g = d ++ [c] ∧ isShortDecimalField d = true ∧ c ≠ '\n' := by
    intro g
    simp only [RE.Matches.eq_2, RE.matches_rep_cls, RE.Matches.eq_1, isShortDecimalField_iff]
    constructor
    · rintro ⟨u, v, hg, hu, c, hv, hc⟩
      exact ⟨u, c, by rw [hg, hv], hu, by simpa [CharClass.test] using hc⟩
    · rintro ⟨d, c, hg, hd, hc⟩
      exact ⟨d, [c], hg, hd, c, rfl, by simpa [CharClass.test] using hc⟩
  simp only [ipv4Regexp, RE.Matches.eq_2]
  simp only [RE.Matches.eq_3, RE.pow_cls, ← isShortDecimalField_iff]
  constructor
  · rintro ⟨u, v, hw, ⟨n, hn1, hn2, hpow⟩, m, hm1, hm2, hv⟩
    have hn : n = 3 := by omega
    subst hn
    simp only [RE.Pow] at hpow
    obtain ⟨g1, r1, hu, hg1, g2, r2, hr1, hg2, g3, r3, hr2, hg3, hr3⟩ := hpow
    obtain ⟨d1, c1, e1, hd1, hc1⟩ := (hgrp g1).mp hg1
    obtain ⟨d2, c2, e2, hd2, hc2⟩ := (hgrp g2).mp hg2
    obtain ⟨d3, c3, e3, hd3, hc3⟩ := (hgrp g3).mp hg3
    refine ⟨d1, c1, d2, c2, d3, c3, v, ?_, hd1, hd2, hd3, ?_, hc1, hc2, hc3⟩
    · subst hw hu hr1 hr2 hr3 e1 e2 e3
      simp
    · rw [isShortDecimalField_iff]
      exact ⟨by omega, by omega, hv.2⟩
  · rintro ⟨d1, c1, d2, c2, d3, c3, d4, hw, hd1, hd2, hd3, hd4, hc1, hc2, hc3⟩
    refine ⟨d1 ++ [c1] ++ ((d2 ++ [c2]) ++ ((d3 ++ [c3]) ++ [])), d4, ?_, ⟨3, by omega, by omega, ?_⟩, ?_⟩
    · rw [hw]; simp
    · simp only [RE.Pow]
      exact ⟨d1 ++ [c1], _, rfl, (hgrp _).mpr ⟨d1, c1, rfl, hd1, hc1⟩,
        d2 ++ [c2], _, rfl, (hgrp _).mpr ⟨d2, c2, rfl, hd2, hc2⟩,
        d3 ++ [c3], _, rfl, (hgrp _).mpr ⟨d3, c3, rfl, hd3, hc3⟩, rfl⟩
    · rw [isShortDecimalField_iff] at hd4
      exact ⟨d4.length, hd4.1, hd4.2.1, rfl, hd4.2.2⟩

theorem fields_ne_nil (sep : Char) : ∀ w : List Char, fields sep w ≠ []
  | [] => by simp [fields]
  | c :: cs => by
    have ih := fields_ne_nil sep cs
    by_cases h : c = sep
    · simp [fields, h]
    · simp only [fields, h, if_false]
      cases hf : fields sep cs with
      | nil => exact absurd hf ih
      | cons f fs => simp

theorem fields_length (sep : Char) : ∀ w : List Char,
    (fields sep w).length = w.count sep + 1
  | [] => by simp [fields]
  | c :: cs => by
    have ih := fields_length sep cs
    by_cases h : c = sep
    · subst h
      simp [fields, ih]
    · have hne : (c == sep) = false := by simpa using h
      simp only [fields, h, if_false, List.count_cons, hne]
      cases hf : fields sep cs with
      | nil => exact absurd hf (fields_ne_nil sep cs)
      | cons f fs =>
        rw [hf] at ih
        simpa using ih

theorem fields_of_not_mem (sep : Char) : ∀ d : List Char, sep ∉ d → fields sep d = [d]
  | [], _ => by simp [fields]
  | c :: cs, h => by
    have hc : c ≠ sep := fun e => h (by simp [e])
    have hcs : sep ∉ cs := fun e => h (List.mem_cons_of_mem c e)
    simp [fields, hc, fields_of_not_mem sep cs hcs]

theorem fields_append_sep (sep : Char) (r : List Char) : ∀ d : List Char, sep ∉ d →
    fields sep (d ++ sep :: r) = d :: fields sep r
  | [], _ => by simp [fields]
  | c :: cs, h => by
    have hc : c ≠ sep := fun e => h (by simp [e])
    have hcs : sep ∉ cs := fun e => h (List.mem_cons_of_mem c e)
    simp [fields, hc, fields_append_sep sep r cs hcs]

theorem dot_not_mem_of_short (d : List Char) (h : isShortDecimalField d = true) : '.' ∉ d := by
  intro hmem
  have hd := ((isShortDecimalField_iff d).mp h).2.2 '.' hmem
  revert hd
  decide

/-- A text the body of `ipv4Regexp` matches and that has four fields when cut at `.` is made
of four fields of one to three decimal digits. -/
theorem ipv4Regexp_fields (w : List Char) (hm : ipv4Regexp.body.Matches w)
    (hd : (fields '.' w).length = 4) :
    ∃ d1 d2 d3 d4, fields '.' w = [d1, d2, d3, d4] ∧
      isShortDecimalField d1 = true ∧ isShortDecimalField d2 = true ∧
      isShortDecimalField d3 = true ∧ isShortDecimalField d4 = true := by
  obtain ⟨d1, c1, d2, c2, d3, c3, d4, hw, h1, h2, h3, h4, -, -, -⟩ :=
    (ipv4Regexp_matches_iff w).mp hm
  have n1 := dot_not_mem_of_short d1 h1
  have n2 := dot_not_mem_of_short d2 h2
  have n3 := dot_not_mem_of_short d3 h3
  have n4 := dot_not_mem_of_short d4 h4
  rw [fields_length] at hd
  have hcount : w.count '.' =
      (if c1 = '.' then 1 else 0) + (if c2 = '.' then 1 else 0) + (if c3 = '.' then 1 else 0) := by
    rw [hw]
    simp only [List.count_append, List.count_cons, List.count_eq_zero_of_not_mem n1,
      List.count_eq_zero_of_not_mem n2, List.count_eq_zero_of_not_mem n3,
      List.count_eq_zero_of_not_mem n4, beq_iff_eq]
    omega
  have e1 : c1 = '.' := by
    by_contra h
    rw [hcount, if_neg h] at hd
    split_ifs at hd <;> omega
  have e2 : c2 = '.' := by
    by_contra h
    rw [hcount, if_neg h] at hd
    split_ifs at hd <;> omega
  have e3 : c3 = '.' := by
    by_contra h
    rw [hcount, if_neg h, if_pos e1, if_pos e2] at hd
    omega
  subst e1 e2 e3
  refine ⟨d1, d2, d3, d4, ?_, h1, h2, h3, h4⟩
  rw [hw, fields_append_sep '.' _ d1 n1, fields_append_sep '.' _ d2 n2,
    fields_append_sep '.' _ d3 n3, fields_of_not_mem '.' d4 n4]

/-! ## Validators and the configuration -/

/-- A validator gives the same verdict in two configurations that agree on the attributes it
reads. -/
theorem Validator.accepts_congr (cfg1 cfg2 : Config) (x : Value) :
    (∀ v : Validator, (∀ a ∈ v.refs, cfg1.lookup a = cfg2.lookup a) →
      v.accepts cfg1 x = v.accepts cfg2 x) ∧
    (∀ vs : List Validator, (∀ a ∈ Validator.refsList vs, cfg1.lookup a = cfg2.lookup a) →
      Validator.acceptsSome vs cfg1 x = Validator.acceptsSome vs cfg2 x) := by
  have key : ∀ v : Validator, (∀ a ∈ v.refs, cfg1.lookup a = cfg2.lookup a) →
      v.accepts cfg1 x = v.accepts cfg2 x := by
    intro v
    refine @Validator.rec
      (fun v => (∀ a ∈ v.refs, cfg1.lookup a = cfg2.lookup a) →
        v.accepts cfg1 x = v.accepts cfg2 x)
      (fun vs => (∀ a ∈ Validator.refsList vs, cfg1.lookup a = cfg2.lookup a) →
        Validator.acceptsSome vs cfg1 x = Validator.acceptsSome vs cfg2 x)
      ?_ ?_ ?_ ?_ ?_ ?_ ?_ ?_ ?_ ?_ v
    · intro re msg _
      cases x <;> simp [Validator.accepts]
    · intro values _
      cases x <;> simp [Validator.accepts]
    · intro n _
      cases x <;> simp [Validator.accepts]
    · intro lo hi _
      cases x <;> simp [Validator.accepts]
    · intro vs ih h
      simp only [Validator.accepts]
      rw [ih (by simpa [Validator.refs] using h)]
    · intro vs ih h
      simp only [Validator.accepts]
      rw [ih (by simpa [Validator.refs] using h)]
    · intro vs ih h
      simp only [Validator.accepts]
      rw [ih (by simpa [Validator.refs] using h)]
    · intro e expected h
      cases e with
      | MatchRoot a =>
        simp only [Validator.accepts, lucirpcglue.RequiresAttributeEqualString]
        rw [h a (by simp [Validator.refs])]
    · intro _
      simp [Validator.acceptsSome]
    · intro v vs ihv ihvs h
      simp only [Validator.acceptsSome]
      rw [ihv (fun a ha => h a (by simp [Validator.refsList, ha])),
        ihvs (fun a ha => h a (by simp [Validator.refsList, ha]))]
  refine ⟨key, ?_⟩
  intro vs
  induction vs with
  | nil => intro _; simp [Validator.acceptsSome]
  | cons v vs ih =>
    intro h
    simp only [Validator.acceptsSome]
    rw [key v (fun a ha => h a (by simp [Validator.refsList, ha])),
      ih (fun a ha => h a (by simp [Validator.refsList, ha]))]

theorem Validator.acceptsAll_congr (cfg1 cfg2 : Config) (x : Value) :
    ∀ vs : List Validator, (∀ a ∈ Validator.refsList vs, cfg1.lookup a = cfg2.lookup a) →
      Validator.acceptsAll vs cfg1 x = Validator.acceptsAll vs cfg2 x := by
  intro vs
  induction vs with
  | nil => intro _; rfl
  | cons v vs ih =>
    intro h
    have hv := (Validator.accepts_congr cfg1 cfg2 x).1 v
      (fun a ha => h a (by simp [Validator.refsList, ha]))
    have hvs := ih (fun a ha => h a (by simp [Validator.refsList, ha]))
    simp only [Validator.acceptsAll, List.all_cons] at hvs ⊢
    rw [hv, hvs]

theorem declaredEntries_refs :
    declaredEntries.all (fun e =>
      (Validator.refsList e.Validators).all (fun a => a == "proto") &&
      (protoDependent.contains (e.table, e.key) ||
        (Validator.refsList e.Validators).isEmpty)) = true := by
  decide

theorem validatorsOf_refs (resource attr : String) :
    (∀ a ∈ Validator.refsList (validatorsOf resource attr), a = "proto") ∧
    ((resource, attr) ∉ protoDependent →
      Validator.refsList (validatorsOf resource attr) = []) := by
  unfold validatorsOf
  cases hf : declaredEntries.find? (fun e => e.table == resource && e.key == attr) with
  | none => simp [Validator.refsList]
  | some e =>
    have hmem : e ∈ declaredEntries := List.mem_of_find?_eq_some hf
    have hp := List.find?_some hf
    simp only [Bool.and_eq_true, beq_iff_eq] at hp
    have hall := List.all_eq_true.mp declaredEntries_refs e hmem
    simp only [Bool.and_eq_true, Bool.or_eq_true, List.all_eq_true, beq_iff_eq,
      List.contains_iff_exists_mem_beq, List.isEmpty_iff] at hall
    refine ⟨hall.1, ?_⟩
    intro hnot
    rcases hall.2 with ⟨p, hp1, hp2⟩ | h
    · exfalso
      apply hnot
      have : p = (resource, attr) := by
        rw [← hp.1, ← hp.2]
        exact hp2.symm
      rw [← this]
      exact hp1
    · exact h

/-! ## The claims -/

/-- C1 (as stated, fails): the validators of the network interface attributes `gateway` and
`peerdns` give different verdicts on the same value in two configurations that differ only
in `proto`. -/
theorem c1_verdict_depends_on_proto :
    staticGatewayConfig.lookup "gateway" = some (.StringValue "192.168.1.1") ∧
    dhcpGatewayConfig.lookup "gateway" = some (.StringValue "192.168.1.1") ∧
    networkinterface.gatewaySchemaAttribute.validate staticGatewayConfig
      (.StringValue "192.168.1.1") = true ∧
    networkinterface.gatewaySchemaAttribute.validate dhcpGatewayConfig
      (.StringValue "192.168.1.1") = false ∧
    networkinterface.peerDNSSchemaAttribute.validate
      [("proto", .StringValue "dhcp"), ("peerdns", .BoolValue true)] (.BoolValue true) = true ∧
    networkinterface.peerDNSSchemaAttribute.validate
      [("proto", .StringValue "static"), ("peerdns", .BoolValue true)] (.BoolValue true)
        = false := by
  decide

/-- C1 (amended): for every resource and every attribute, two configurations that give the
attribute the same value `x` and give `proto` the same value get the same verdict from the
validators of the attribute; and for every attribute other than the network interface's
`dns`, `gateway`, `ip6assign`, `netmask`, `peerdns`, `reqaddress` and `reqprefix` the verdict
is the same in any two configurations. -/
theorem c1_validation_independent_up_to_proto (resource attr : String) (cfg1 cfg2 : Config)
    (x : Value) :
    (cfg1.lookup "proto" = cfg2.lookup "proto" →
      Validator.acceptsAll (validatorsOf resource attr) cfg1 x =
        Validator.acceptsAll (validatorsOf resource attr) cfg2 x) ∧
    ((resource, attr) ∉ protoDependent →
      Validator.acceptsAll (validatorsOf resource attr) cfg1 x =
        Validator.acceptsAll (validatorsOf resource attr) cfg2 x) := by
  obtain ⟨h1, h2⟩ := validatorsOf_refs resource attr
  constructor
  · intro hproto
    apply Validator.acceptsAll_congr
    intro a ha
    rw [h1 a ha]
    exact hproto
  · intro hnot
    apply Validator.acceptsAll_congr
    intro a ha
    rw [h2 hnot] at ha
    simp at ha

/-- C1 (amended), at the `gateway` of two static interfaces and at the `mtu` of a static and
a DHCP interface. -/
theorem c1_validation_independent_up_to_proto_witness :
    staticGatewayConfig.lookup "proto" = staticGatewayMtuConfig.lookup "proto" ∧
    Validator.acceptsAll (validatorsOf "networkinterface" "gateway") staticGatewayConfig
        (.StringValue "192.168.1.1") =
      Validator.acceptsAll (validatorsOf "networkinterface" "gateway") staticGatewayMtuConfig
        (.StringValue "192.168.1.1") ∧
    ("networkinterface", "mtu") ∉ protoDependent ∧
    Validator.acceptsAll (validatorsOf "networkinterface" "mtu") staticGatewayMtuConfig
        (.Int64Value 1500) =
      Validator.acceptsAll (validatorsOf "networkinterface" "mtu") dhcpGatewayConfig
        (.Int64Value 1500) :=
  ⟨by decide,
   (c1_validation_independent_up_to_proto "networkinterface" "gateway" staticGatewayConfig
      staticGatewayMtuConfig (.StringValue "192.168.1.1")).1 (by decide),
   by decide,
   (c1_validation_independent_up_to_proto "networkinterface" "mtu" staticGatewayMtuConfig
      dhcpGatewayConfig (.Int64Value 1500)).2 (by decide)⟩

/-- C2 (as stated, fails): the validator of the zone attribute `network` is
`listvalidator.SizeAtLeast(1)`, neither a pattern nor an enumeration check; nor are the
`int64validator.Between` of the network interface attributes `metric` and `mtu`. -/
theorem c2_validators_other_than_pattern_or_enum :
    (validatorsOf "zone" "network").map (fun v => v.isRegexMatches || v.isOneOf) = [false] ∧
    (validatorsOf "networkinterface" "metric").map (fun v => v.isRegexMatches || v.isOneOf)
      = [false] ∧
    (validatorsOf "networkinterface" "mtu").map (fun v => v.isRegexMatches || v.isOneOf)
      = [false] := by
  decide

/-- C2 (amended): every validator of a declared attribute of the six tables is, on a string
attribute, a pattern check, an enumeration check or a requirement on `proto`; on a list
attribute, `SizeAtLeast(1)` or `AnyWithAllWarnings` of requirements on `proto`; on an integer
attribute, `Between`, `Any()` without argument or a requirement on `proto`; on a boolean
attribute, `AnyBool` of requirements on `proto`. -/
theorem c2_validator_kinds :
    declaredEntries.all (fun e => e.Validators.all (validatorAllowed e.fieldType)) = true := by
  decide

/-- C3 (as stated, fails): the network interface model has the field `Data` of type
`types.Map`, which is none of the four types. -/
theorem c3_networkinterface_data_is_map :
    ({ name := "Data", goType := .Map, tfsdk := "data" } : ModelField)
      ∈ networkinterface.modelFields ∧
    isSpecType .Map = false := by
  decide

/-- C3 (amended): every field of the five model records forwarding, redirect, rule, zone and
bridge-VLAN has one of the four types string, 64-bit integer, boolean, list of strings; so
has every field of the network interface model but one, `Data`, which is a map. -/
theorem c3_model_field_types :
    allModels.map (fun m => (m.1, m.2.filter (fun f => !isSpecType f.goType))) =
      [ ("forwarding", []), ("redirect", []), ("rule", []), ("zone", []), ("bridgevlan", []),
        ("networkinterface", [{ name := "Data", goType := .Map, tfsdk := "data" }]) ] := by
  decide

/-- The pattern validators of `ipaddr`, `gateway` and `netmask` accept exactly the texts the
body of `ipv4Regexp` matches. -/
theorem ipv4_patternAccepts_iff (s : String) :
    (networkinterface.ipAddressSchemaAttribute.patternAccepts s = true ↔
      ipv4Regexp.body.Matches s.toList) ∧
    (networkinterface.gatewaySchemaAttribute.patternAccepts s = true ↔
      ipv4Regexp.body.Matches s.toList) ∧
    (networkinterface.netmaskSchemaAttribute.patternAccepts s = true ↔
      ipv4Regexp.body.Matches s.toList) := by
  have h := Regexp.matchString_iff_matches ipv4Regexp rfl rfl s
  refine ⟨?_, ?_, ?_⟩ <;>
  · rw [← h]
    simp [lucirpcglue.SchemaAttribute.patternAccepts, lucirpcglue.SchemaAttribute.Validators,
      networkinterface.ipAddressSchemaAttribute, networkinterface.gatewaySchemaAttribute,
      networkinterface.netmaskSchemaAttribute, Validator.acceptsAll, Validator.isRegexMatches,
      Validator.accepts]

theorem fields_all_short_of_matches (s : String) (hm : ipv4Regexp.body.Matches s.toList)
    (hd : isDotted s = true) :
    (fields '.' s.toList).all isShortDecimalField = true := by
  have hlen : (fields '.' s.toList).length = 4 := by simpa [isDotted] using hd
  obtain ⟨d1, d2, d3, d4, hf, h1, h2, h3, h4⟩ := ipv4Regexp_fields s.toList hm hlen
  rw [hf]
  simp [h1, h2, h3, h4]

/-- The `.` of `ipv4Regexp` is not escaped: the pattern also matches texts whose groups of
digits are separated by other characters, or by digits. -/
theorem ipv4Regexp_accepts_other_separators :
    ipv4Regexp.MatchString "1a2b3c4" = true ∧ ipv4Regexp.MatchString "1234567" = true := by
  decide

/-- C4 (as stated, fails): the pattern validators of `ipaddr` and `gateway` accept
`999.999.999.999`, which is no valid IPv4 address. -/
theorem c4_accepts_fields_above_255 :
    networkinterface.ipAddressSchemaAttribute.patternAccepts "999.999.999.999" = true ∧
    networkinterface.gatewaySchemaAttribute.patternAccepts "999.999.999.999" = true ∧
    validIPv4 "999.999.999.999" = false := by
  decide

/-- C4 (amended): for every text `s` in dotted form (four fields when cut at `.`), if the
pattern validator of `ipaddr`, or that of `gateway`, accepts `s`, then each of the four
fields consists of one to three decimal digits. -/
theorem c4_ipaddr_pattern_fields (s : String) (hd : isDotted s = true)
    (h : networkinterface.ipAddressSchemaAttribute.patternAccepts s = true ∨
      networkinterface.gatewaySchemaAttribute.patternAccepts s = true) :
    (fields '.' s.toList).all isShortDecimalField = true := by
  obtain ⟨h1, h2, -⟩ := ipv4_patternAccepts_iff s
  have hm : ipv4Regexp.body.Matches s.toList := by
    rcases h with h | h
    · exact h1.mp h
    · exact h2.mp h
  exact fields_all_short_of_matches s hm hd

/-- C4 (amended), at the example of the error message of `ipaddr`. -/
theorem c4_ipaddr_pattern_fields_witness :
    isDotted "192.168.3.1" = true ∧
    networkinterface.ipAddressSchemaAttribute.patternAccepts "192.168.3.1" = true ∧
    (fields '.' "192.168.3.1".toList).all isShortDecimalField = true :=
  ⟨by decide, by decide,
    c4_ipaddr_pattern_fields "192.168.3.1" (by decide) (Or.inl (by decide))⟩

/-- C5 (as stated, fails): the pattern validator of `netmask` accepts `255.0.255.0`, whose
binary form is not a run of ones followed by a run of zeros. -/
theorem c5_accepts_non_contiguous_mask :
    networkinterface.netmaskSchemaAttribute.patternAccepts "255.0.255.0" = true ∧
    validIPv4 "255.0.255.0" = true ∧
    validNetmask "255.0.255.0" = false ∧
    validNetmask "255.255.255.0" = true := by
  decide

/-- C5 (amended): for every text `s` in dotted form (four fields when cut at `.`), if the
pattern validator of `netmask` accepts `s`, then each of the four fields consists of one to
three decimal digits. -/
theorem c5_netmask_pattern_fields (s : String) (hd : isDotted s = true)
    (h : networkinterface.netmaskSchemaAttribute.patternAccepts s = true) :
    (fields '.' s.toList).all isShortDecimalField = true := by
  obtain ⟨-, -, h3⟩ := ipv4_patternAccepts_iff s
  exact fields_all_short_of_matches s (h3.mp h) hd

/-- C5 (amended), at the example of the error message of `netmask`. -/
theorem c5_netmask_pattern_fields_witness :
    isDotted "255.255.255.0" = true ∧
    networkinterface.netmaskSchemaAttribute.patternAccepts "255.255.255.0" = true ∧
    (fields '.' "255.255.255.0".toList).all isShortDecimalField = true :=
  ⟨by decide, by decide, c5_netmask_pattern_fields "255.255.255.0" (by decide) (by decide)⟩

/-- C6 (as stated, fails): the validators of `proto` of the rule and of the redirect accept
the list `["icmp"]`, whose element is neither `tcp` nor `udp`. -/
theorem c6_proto_accepts_icmp :
    rule.protocolSchemaAttribute.validate [] (.ListValue ["icmp"]) = true ∧
    redirect.protocolSchemaAttribute.validate [] (.ListValue ["icmp"]) = true ∧
    ["icmp"].all (fun p => p == "tcp" || p == "udp") = false := by
  decide

/-- C6 (amended): the validators of `proto` of the rule and of the redirect accept a list of
strings exactly when it has at least one element, whatever the elements are. -/
theorem c6_proto_accepts_iff_nonempty (cfg : Config) (xs : List String) :
    (rule.protocolSchemaAttribute.validate cfg (.ListValue xs) = true ↔ 1 ≤ xs.length) ∧
    (redirect.protocolSchemaAttribute.validate cfg (.ListValue xs) = true ↔
      1 ≤ xs.length) := by
  simp [lucirpcglue.SchemaAttribute.validate, lucirpcglue.SchemaAttribute.Validators,
    rule.protocolSchemaAttribute, redirect.protocolSchemaAttribute, Validator.acceptsAll,
    Validator.accepts]

/-- C7 (as stated, fails): the enumeration validator of the network interface `proto`
accepts `dhcpv6`, which is neither `dhcp` nor `static`. -/
theorem c7_proto_accepts_dhcpv6 :
    networkinterface.protocolSchemaAttribute.enumAccepts "dhcpv6" = true ∧
    "dhcpv6" ≠ "dhcp" ∧ "dhcpv6" ≠ "static" := by
  decide

/-- C7 (amended): for every string `s`, the enumeration validator of the network interface
`proto` accepts `s` if and only if `s` is `dhcp`, `dhcpv6` or `static`. -/
theorem c7_proto_accepts_iff (s : String) :
    networkinterface.protocolSchemaAttribute.enumAccepts s = true ↔
      s = "dhcp" ∨ s = "dhcpv6" ∨ s = "static" := by
  simp [lucirpcglue.SchemaAttribute.enumAccepts, lucirpcglue.SchemaAttribute.Validators,
    networkinterface.protocolSchemaAttribute, Validator.acceptsAll, Validator.isOneOf,
    Validator.accepts, networkinterface.protocolDHCP, networkinterface.protocolDHCPV6,
    networkinterface.protocolStatic]

/-- C8 (the code at the configuration of its own test): the zone table declares `network`
as `Required`, so the resource of `createAndReadResource`, which sets `name`, `forward`,
`input` and `output` and omits `network`, breaks the presence rule of `network`; it breaks
no validator. -/
theorem c8_zone_network_is_required :
    zone.networkSchemaAttribute.ResourceExistence = some .Required ∧
    lucirpcglue.presenceViolations zone.schemaAttributes zone.createAndReadResource
      = ["network"] ∧
    lucirpcglue.validatorViolations zone.schemaAttributes zone.createAndReadResource
      = [] := by
  decide

/-- C9 (the code at the configuration of its own test): the redirect table declares
`dest_ip` as `Required`, so the resource of `createAndReadResource`, which omits `dest_ip`,
breaks the presence rule of `dest_ip`. -/
theorem c9_redirect_dest_ip_is_required :
    redirect.destIpSchemaAttribute.ResourceExistence = some .Required ∧
    lucirpcglue.presenceViolations redirect.schemaAttributes redirect.createAndReadResource
      = ["dest_ip"] := by
  decide

/-- C10 (the code at the configuration of its own test): the forwarding table has the keys
`src`, `id`, `dest` and `family` and the forwarding model the tags `id`, `src`, `dest` and
`family`; neither has `name`, so the resource of `createAndReadResource` sets an argument
the schema does not support. -/
theorem c10_forwarding_has_no_name :
    forwarding.schemaAttributes.map Prod.fst = ["src", "id", "dest", "family"] ∧
    forwarding.modelFields.map (fun f => f.tfsdk) = ["id", "src", "dest", "family"] ∧
    lucirpcglue.unsupportedArguments forwarding.schemaAttributes
      forwarding.createAndReadResource = ["name"] := by
  decide

/-! ## Bindings and identifiers -/

theorem forwarding_bindingsAgree : ∀ e ∈ forwarding.schemaAttributes, e.2.BindingsAgree := by
  intro e he
  simp only [forwarding.schemaAttributes, List.mem_cons, List.mem_singleton,
    List.not_mem_nil, or_false] at he
  rcases he with rfl | rfl | rfl | rfl
  all_goals
    first
    | exact trivial
    | exact And.intro rfl (And.intro rfl (And.intro (fun _ _ => rfl) (And.intro (fun _ => rfl)
        (And.intro (fun _ _ _ => rfl) (fun _ _ _ => rfl)))))

theorem redirect_bindingsAgree : ∀ e ∈ redirect.schemaAttributes, e.2.BindingsAgree := by
  intro e he
  simp only [redirect.schemaAttributes, List.mem_cons, List.mem_singleton,
    List.not_mem_nil, or_false] at he
  rcases he with rfl | rfl | rfl | rfl | rfl | rfl | rfl | rfl | rfl | rfl | rfl | rfl | rfl
  all_goals
    first
    | exact trivial
    | exact And.intro rfl (And.intro rfl (And.intro (fun _ _ => rfl) (And.intro (fun _ => rfl)
        (And.intro (fun _ _ _ => rfl) (fun _ _ _ => rfl)))))

theorem rule_bindingsAgree : ∀ e ∈ rule.schemaAttributes, e.2.BindingsAgree := by
  intro e he
  simp only [rule.schemaAttributes, List.mem_cons, List.mem_singleton,
    List.not_mem_nil, or_false] at he
  rcases he with rfl | rfl | rfl | rfl | rfl | rfl | rfl | rfl | rfl | rfl | rfl
  all_goals
    first
    | exact trivial
    | exact And.intro rfl (And.intro rfl (And.intro (fun _ _ => rfl) (And.intro (fun _ => rfl)
        (And.intro (fun _ _ _ => rfl) (fun _ _ _ => rfl)))))

theorem zone_bindingsAgree : ∀ e ∈ zone.schemaAttributes, e.2.BindingsAgree := by
  intro e he
  simp only [zone.schemaAttributes, List.mem_cons, List.mem_singleton,
    List.not_mem_nil, or_false] at he
  rcases he with rfl | rfl | rfl | rfl | rfl | rfl | rfl | rfl
  all_goals
    first
    | exact trivial
    | exact And.intro rfl (And.intro rfl (And.intro (fun _ _ => rfl) (And.intro (fun _ => rfl)
        (And.intro (fun _ _ _ => rfl) (fun _ _ _ => rfl)))))

theorem bridgevlan_bindingsAgree : ∀ e ∈ bridgevlan.schemaAttributes, e.2.BindingsAgree := by
  intro e he
  simp only [bridgevlan.schemaAttributes, List.mem_cons, List.mem_singleton,
    List.not_mem_nil, or_false] at he
  rcases he with rfl | rfl | rfl | rfl
  all_goals
    first
    | exact trivial
    | exact And.intro rfl (And.intro rfl (And.intro (fun _ _ => rfl) (And.intro (fun _ => rfl)
        (And.intro (fun _ _ _ => rfl) (fun _ _ _ => rfl)))))

theorem networkinterface_bindingsAgree :
    ∀ e ∈ networkinterface.schemaAttributes, e.2.BindingsAgree := by
  intro e he
  simp only [networkinterface.schemaAttributes, List.mem_cons, List.mem_singleton,
    List.not_mem_nil, or_false] at he
  rcases he with rfl | rfl | rfl | rfl | rfl | rfl | rfl | rfl | rfl | rfl | rfl | rfl | rfl |
    rfl | rfl | rfl | rfl | rfl | rfl | rfl | rfl | rfl | rfl | rfl | rfl | rfl | rfl | rfl |
    rfl | rfl | rfl | rfl | rfl | rfl | rfl | rfl | rfl | rfl
  all_goals
    first
    | exact trivial
    | exact And.intro rfl (And.intro rfl (And.intro (fun _ _ => rfl) (And.intro (fun _ => rfl)
        (And.intro (fun _ _ _ => rfl) (fun _ _ _ => rfl)))))

/-- C11: in each of the six tables, every attribute declared with both a `ReadResponse` and
an `UpsertRequest` has two bindings that name the same attribute and the same UCI option and
whose setter writes exactly the model field the getter reads; so writing the attribute of a
model into an option map (`options[option] := get(model)`) and reading the map back into any
model (`set(model, options[option])`) restores the value of the attribute. The attributes
concerned are listed table by table. -/
theorem c11_bindings_round_trip :
    ((∀ e ∈ forwarding.schemaAttributes, e.2.BindingsAgree) ∧
      lucirpcglue.writableKeys forwarding.schemaAttributes = ["src", "dest", "family"]) ∧
    ((∀ e ∈ redirect.schemaAttributes, e.2.BindingsAgree) ∧
      lucirpcglue.writableKeys redirect.schemaAttributes =
        ["src", "src_port", "src_dport", "src_ip", "src_dip", "dest", "dest_port", "dest_ip",
          "target", "name", "family", "proto"]) ∧
    ((∀ e ∈ rule.schemaAttributes, e.2.BindingsAgree) ∧
      lucirpcglue.writableKeys rule.schemaAttributes =
        ["src", "src_port", "src_ip", "dest", "dest_port", "dest_ip", "target", "name",
          "family", "proto"]) ∧
    ((∀ e ∈ zone.schemaAttributes, e.2.BindingsAgree) ∧
      lucirpcglue.writableKeys zone.schemaAttributes =
        ["forward", "input", "output", "name", "network", "masquerade", "mssclamp"]) ∧
    ((∀ e ∈ bridgevlan.schemaAttributes, e.2.BindingsAgree) ∧
      lucirpcglue.writableKeys bridgevlan.schemaAttributes = ["device", "ports", "vlan"]) ∧
    ((∀ e ∈ networkinterface.schemaAttributes, e.2.BindingsAgree) ∧
      lucirpcglue.writableKeys networkinterface.schemaAttributes =
        ["auto", "device", "disabled", "dns", "gateway", "ip6assign", "ipaddr", "macaddr",
          "mtu", "metric", "netmask", "peerdns", "proto", "reqaddress", "reqprefix"]) :=
  ⟨⟨forwarding_bindingsAgree, by decide⟩, ⟨redirect_bindingsAgree, by decide⟩,
    ⟨rule_bindingsAgree, by decide⟩, ⟨zone_bindingsAgree, by decide⟩,
    ⟨bridgevlan_bindingsAgree, by decide⟩, ⟨networkinterface_bindingsAgree, by decide⟩⟩

/-- C11, at the rule attribute `dest_port`: the port 8080 of one model, written into an empty
option map and read back into another model, is the port of the model read. -/
theorem c11_bindings_round_trip_witness :
    (rule.destPortAttribute, rule.destPortSchemaAttribute) ∈ rule.schemaAttributes ∧
    rule.modelGetDestPort
      ((lucirpcglue.ReadResponseOptionInt64 rule.modelSetDestPort rule.destPortAttribute
          rule.destPortUCIOption).read
        ((lucirpcglue.UpsertRequestOptionInt64 rule.modelGetDestPort rule.destPortAttribute
          rule.destPortUCIOption).write rule.portModel (fun _ => none))
        rule.namedModel) = some 8080 :=
  have hmem :
      (rule.destPortAttribute, rule.destPortSchemaAttribute) ∈ rule.schemaAttributes := by
    simp [rule.schemaAttributes]
  have h : (rule.destPortAttribute, rule.destPortSchemaAttribute).2.BindingsAgree :=
    c11_bindings_round_trip.2.2.1.1 _ hmem
  ⟨hmem, h.2.2.2.2.2 rule.portModel rule.namedModel (fun _ => none)⟩

/-- C12: in the rule table the attributes declared `Required` are exactly `target` and
`name`, and `src`, `src_port`, `src_ip`, `dest`, `dest_port`, `dest_ip`, `family` and `proto`
are declared `NoValidation`; so a rule configuration that sets `name` and `target` breaks no
presence rule of the table, whether it sets `dest` or not. -/
theorem c12_rule_required_are_name_and_target (cfg : Config)
    (hname : cfg.lookup "name" ≠ none) (htarget : cfg.lookup "target" ≠ none) :
    keysWithExistence rule.schemaAttributes .Required = ["target", "name"] ∧
    keysWithExistence rule.schemaAttributes .NoValidation =
      ["src", "src_port", "src_ip", "dest", "dest_port", "dest_ip", "family", "proto"] ∧
    keysWithExistence rule.schemaAttributes .ReadOnly = [] ∧
    lucirpcglue.presenceViolations rule.schemaAttributes cfg = [] := by
  refine ⟨by decide, by decide, by decide, ?_⟩
  obtain ⟨n, hn⟩ := Option.ne_none_iff_exists'.mp hname
  obtain ⟨t, ht⟩ := Option.ne_none_iff_exists'.mp htarget
  have hn' : List.lookup "name" cfg = some n := hn
  have ht' : List.lookup "target" cfg = some t := ht
  simp [lucirpcglue.presenceViolations, rule.schemaAttributes,
    lucirpcglue.SchemaAttribute.ResourceExistence, lucirpcglue.IdSchemaAttribute,
    rule.srcSchemaAttribute, rule.srcPortSchemaAttribute, rule.srcIpSchemaAttribute,
    rule.destSchemaAttribute, rule.destPortSchemaAttribute, rule.destIpSchemaAttribute,
    rule.targetSchemaAttribute, rule.nameSchemaAttribute, rule.familySchemaAttribute,
    rule.protocolSchemaAttribute, lucirpcglue.AttributeExistence.violatedBy,
    rule.nameAttribute, rule.targetAttribute, hn', ht']

/-- C12, at the resource of the acceptance test, which sets `name` and `target` and omits
`dest`. -/
theorem c12_rule_required_are_name_and_target_witness :
    rule.createAndReadResource.lookup "name" ≠ none ∧
    rule.createAndReadResource.lookup "target" ≠ none ∧
    rule.createAndReadResource.lookup "dest" = none ∧
    lucirpcglue.presenceViolations rule.schemaAttributes rule.createAndReadResource = [] :=
  ⟨by decide, by decide, by decide,
    (c12_rule_required_are_name_and_target rule.createAndReadResource
      (by decide) (by decide)).2.2.2⟩

/-! ## The MAC address pattern -/

theorem xdigit_eq_isHexDigit (c : Char) : CharClass.test .xdigit c = isHexDigit c := by
  rcases Nat.lt_or_ge c.toNat 103 with hlt | hge
  · obtain ⟨k, hk⟩ : ∃ k, c.toNat = k := ⟨_, rfl⟩
    rw [hk] at hlt
    have hc : c = Char.ofNat k := by rw [← hk, Char.ofNat_toNat]
    subst hc
    clear hk
    interval_cases k <;> decide
  · have h1 : CharClass.test .xdigit c = false := by
      have h9 : ¬ c ≤ '9' := by
        intro h
        have : c.toNat ≤ '9'.toNat := h
        have h57 : '9'.toNat = 57 := by decide
        omega
      have hF : ¬ c ≤ 'F' := by
        intro h
        have : c.toNat ≤ 'F'.toNat := h
        have h70 : 'F'.toNat = 70 := by decide
        omega
      have hf : ¬ c ≤ 'f' := by
        intro h
        have : c.toNat ≤ 'f'.toNat := h
        have h102 : 'f'.toNat = 102 := by decide
        omega
      simp [CharClass.test, h9, hF, hf]
    have h2 : isHexDigit c = false := by
      rw [Bool.eq_false_iff]
      intro h
      have hmem : c ∈ "0123456789abcdefABCDEF".toList := by
        simpa [isHexDigit] using h
      have hle : ∀ d ∈ "0123456789abcdefABCDEF".toList, d.toNat ≤ 102 := by decide
      have := hle c hmem
      omega
    rw [h1, h2]

theorem isHexPair_iff (g : List Char) :
    isHexPair g = true ↔ ∃ a b, g = [a, b] ∧ isHexDigit a = true ∧ isHexDigit b = true := by
  constructor
  · intro h
    simp only [isHexPair, Bool.and_eq_true, beq_iff_eq, List.all_eq_true] at h
    obtain ⟨hlen, hall⟩ := h
    match g, hlen, hall with
    | [a, b], _, hall => exact ⟨a, b, rfl, hall a (by simp), hall b (by simp)⟩
  · rintro ⟨a, b, rfl, ha, hb⟩
    simp [isHexPair, ha, hb]

theorem colon_not_mem_of_hexPair (g : List Char) (h : isHexPair g = true) : ':' ∉ g := by
  intro hmem
  simp only [isHexPair, Bool.and_eq_true, List.all_eq_true] at h
  have := h.2 ':' hmem
  revert this
  decide

theorem joinFields_fields (sep : Char) : ∀ w : List Char, joinFields sep (fields sep w) = w
  | [] => by simp [fields, joinFields]
  | c :: cs => by
    have ih := joinFields_fields sep cs
    by_cases h : c = sep
    · subst h
      simp only [fields, if_true]
      cases hf : fields c cs with
      | nil => exact absurd hf (fields_ne_nil c cs)
      | cons f fs =>
        rw [hf] at ih
        simp [joinFields, ih]
    · simp only [fields, h, if_false]
      cases hf : fields sep cs with
      | nil => exact absurd hf (fields_ne_nil sep cs)
      | cons f fs =>
        rw [hf] at ih
        cases fs with
        | nil =>
          simp only [joinFields] at ih ⊢
          rw [ih]
        | cons g fs =>
          simp only [joinFields] at ih ⊢
          rw [← ih]
          simp

/-- The texts the body of `macRegexp` matches: six pairs of hexadecimal digits, with a `:`
after each of the first five. -/
theorem macRegexp_matches_iff (w : List Char) :
    macRegexp.body.Matches w ↔
      ∃ g1 g2 g3 g4 g5 g6,
        w = g1 ++ ':' :: (g2 ++ ':' :: (g3 ++ ':' :: (g4 ++ ':' :: (g5 ++ ':' :: g6)))) ∧
        isHexPair g1 = true ∧ isHexPair g2 = true ∧ isHexPair g3 = true ∧
        isHexPair g4 = true ∧ isHexPair g5 = true ∧ isHexPair g6 = true := by
  have hpair : ∀ g : List Char,
      (RE.cat (.cls .xdigit) (.cls .xdigit)).Matches g ↔ isHexPair g = true := by
    intro g
    rw [isHexPair_iff]
    simp only [RE.Matches.eq_2, RE.Matches.eq_1, xdigit_eq_isHexDigit]
    constructor
    · rintro ⟨u, v, hg, ⟨a, hu, ha⟩, b, hv, hb⟩
      exact ⟨a, b, by rw [hg, hu, hv]; rfl, ha, hb⟩
    · rintro ⟨a, b, hg, ha, hb⟩
      exact ⟨[a], [b], by rw [hg]; rfl, ⟨a, rfl, ha⟩, b, rfl, hb⟩
  have hgrp : ∀ g : List Char,
      (RE.cat (.cat (.cls .xdigit) (.cls .xdigit)) (.cls (.lit ':'))).Matches g ↔
        ∃ p, g = p ++ [':'] ∧ isHexPair p = true := by
    intro g
    rw [RE.Matches.eq_2]
    simp only [hpair, RE.Matches.eq_1]
    constructor
    · rintro ⟨u, v, hg, hu, c, hv, hc⟩
      have hc' : c = ':' := by simpa [CharClass.test] using hc
      subst hc'
      exact ⟨u, by rw [hg, hv], hu⟩
    · rintro ⟨p, hg, hp⟩
      exact ⟨p, [':'], hg, hp, ':', rfl, by simp [CharClass.test]⟩
  rw [macRegexp, RE.Matches.eq_2]
  simp only [hpair, RE.Matches.eq_3]
  constructor
  · rintro ⟨u, v, hw, ⟨n, hn1, hn2, hpow⟩, hv⟩
    have hn : n = 5 := by omega
    subst hn
    simp only [RE.Pow] at hpow
    obtain ⟨x1, r1, hu, hx1, x2, r2, hr1, hx2, x3, r3, hr2, hx3, x4, r4, hr3, hx4,
      x5, r5, hr4, hx5, hr5⟩ := hpow
    obtain ⟨g1, e1, h1⟩ := (hgrp x1).mp hx1
    obtain ⟨g2, e2, h2⟩ := (hgrp x2).mp hx2
    obtain ⟨g3, e3, h3⟩ := (hgrp x3).mp hx3
    obtain ⟨g4, e4, h4⟩ := (hgrp x4).mp hx4
    obtain ⟨g5, e5, h5⟩ := (hgrp x5).mp hx5
    refine ⟨g1, g2, g3, g4, g5, v, ?_, h1, h2, h3, h4, h5, hv⟩
    subst hw hu hr1 hr2 hr3 hr4 hr5 e1 e2 e3 e4 e5
    simp
  · rintro ⟨g1, g2, g3, g4, g5, g6, hw, h1, h2, h3, h4, h5, h6⟩
    refine ⟨(g1 ++ [':']) ++ ((g2 ++ [':']) ++ ((g3 ++ [':']) ++ ((g4 ++ [':']) ++
      ((g5 ++ [':']) ++ [])))), g6, ?_, ⟨5, by omega, by omega, ?_⟩, h6⟩
    · rw [hw]; simp
    · simp only [RE.Pow]
      exact ⟨g1 ++ [':'], _, rfl, (hgrp _).mpr ⟨g1, rfl, h1⟩,
        g2 ++ [':'], _, rfl, (hgrp _).mpr ⟨g2, rfl, h2⟩,
        g3 ++ [':'], _, rfl, (hgrp _).mpr ⟨g3, rfl, h3⟩,
        g4 ++ [':'], _, rfl, (hgrp _).mpr ⟨g4, rfl, h4⟩,
        g5 ++ [':'], _, rfl, (hgrp _).mpr ⟨g5, rfl, h5⟩, rfl⟩

theorem mac_patternAccepts_iff (s : String) :
    networkinterface.macAddressSchemaAttribute.patternAccepts s = true ↔
      macRegexp.body.Matches s.toList := by
  rw [← Regexp.matchString_iff_matches macRegexp rfl rfl s]
  simp [lucirpcglue.SchemaAttribute.patternAccepts, lucirpcglue.SchemaAttribute.Validators,
    networkinterface.macAddressSchemaAttribute, Validator.acceptsAll,
    Validator.isRegexMatches, Validator.accepts]

theorem macRegexp_matches_iff_isMacAddress (s : String) :
    macRegexp.body.Matches s.toList ↔ isMacAddress s = true := by
  rw [macRegexp_matches_iff]
  constructor
  · rintro ⟨g1, g2, g3, g4, g5, g6, hw, h1, h2, h3, h4, h5, h6⟩
    have n1 := colon_not_mem_of_hexPair g1 h1
    have n2 := colon_not_mem_of_hexPair g2 h2
    have n3 := colon_not_mem_of_hexPair g3 h3
    have n4 := colon_not_mem_of_hexPair g4 h4
    have n5 := colon_not_mem_of_hexPair g5 h5
    have n6 := colon_not_mem_of_hexPair g6 h6
    have hf : fields ':' s.toList = [g1, g2, g3, g4, g5, g6] := by
      rw [hw, fields_append_sep ':' _ g1 n1, fields_append_sep ':' _ g2 n2,
        fields_append_sep ':' _ g3 n3, fields_append_sep ':' _ g4 n4,
        fields_append_sep ':' _ g5 n5, fields_of_not_mem ':' g6 n6]
    have hlen : ∀ g : List Char, isHexPair g = true → g.length = 2 := by
      intro g hg
      simp only [isHexPair, Bool.and_eq_true, beq_iff_eq] at hg
      exact hg.1
    have hl : s.toList.length = 17 := by
      rw [hw]
      simp only [List.length_append, List.length_cons, hlen g1 h1, hlen g2 h2, hlen g3 h3,
        hlen g4 h4, hlen g5 h5, hlen g6 h6]
    simp only [isMacAddress, hf, hl]
    simp [h1, h2, h3, h4, h5, h6]
  · intro h
    simp only [isMacAddress, Bool.and_eq_true, beq_iff_eq, List.all_eq_true] at h
    obtain ⟨⟨-, hlen⟩, hall⟩ := h
    have hj := joinFields_fields ':' s.toList
    match hf : fields ':' s.toList, hlen with
    | [g1, g2, g3, g4, g5, g6], _ =>
      rw [hf] at hj hall
      refine ⟨g1, g2, g3, g4, g5, g6, ?_, hall g1 (by simp), hall g2 (by simp),
        hall g3 (by simp), hall g4 (by simp), hall g5 (by simp), hall g6 (by simp)⟩
      rw [← hj]
      simp [joinFields]

/-- C13: for every string `s`, the pattern validator of `macaddr` accepts `s` if and only if
`s` is a valid colon-separated MAC address (17 characters: six groups of two hexadecimal
digits, upper or lower case, with a `:` between consecutive groups); `12:34:56:78:90:ab` is
accepted, and a text with another separator, a missing group or trailing characters is
not. -/
theorem c13_macaddr_accepts_iff (s : String) :
    (networkinterface.macAddressSchemaAttribute.patternAccepts s = true ↔
      isMacAddress s = true) ∧
    networkinterface.macAddressSchemaAttribute.patternAccepts "12:34:56:78:90:ab" = true ∧
    networkinterface.macAddressSchemaAttribute.patternAccepts "12:34:56:78:90:AB" = true ∧
    networkinterface.macAddressSchemaAttribute.patternAccepts "12-34-56-78-90-ab" = false ∧
    networkinterface.macAddressSchemaAttribute.patternAccepts "12:34:56:78:90" = false ∧
    networkinterface.macAddressSchemaAttribute.patternAccepts "12:34:56:78:90:ab:" = false ∧
    networkinterface.macAddressSchemaAttribute.patternAccepts "12:34:56:78:90:abc"
      = false := by
  refine ⟨?_, by decide, by decide, by decide, by decide, by decide, by decide⟩
  rw [mac_patternAccepts_iff, macRegexp_matches_iff_isMacAddress]

/-- C14: every text made of four groups of one to three decimal digits joined by `.` is
accepted by the pattern validators of `ipaddr`, `gateway` and `netmask`. -/
theorem c14_dotted_digit_groups_accepted (s : String) (d1 d2 d3 d4 : List Char)
    (hs : s.toList = d1 ++ '.' :: (d2 ++ '.' :: (d3 ++ '.' :: d4)))
    (h1 : isShortDecimalField d1 = true) (h2 : isShortDecimalField d2 = true)
    (h3 : isShortDecimalField d3 = true) (h4 : isShortDecimalField d4 = true) :
    networkinterface.ipAddressSchemaAttribute.patternAccepts s = true ∧
    networkinterface.gatewaySchemaAttribute.patternAccepts s = true ∧
    networkinterface.netmaskSchemaAttribute.patternAccepts s = true := by
  have hm : ipv4Regexp.body.Matches s.toList :=
    (ipv4Regexp_matches_iff s.toList).mpr
      ⟨d1, '.', d2, '.', d3, '.', d4, hs, h1, h2, h3, h4, by decide, by decide, by decide⟩
  obtain ⟨ha, hb, hc⟩ := ipv4_patternAccepts_iff s
  exact ⟨ha.mpr hm, hb.mpr hm, hc.mpr hm⟩

/-- C14, at the examples of the error messages: `192.168.3.1` for `ipaddr`, `192.168.1.1`
for `gateway` and `255.255.255.0` for `netmask`. -/
theorem c14_dotted_digit_groups_accepted_witness :
    networkinterface.ipAddressSchemaAttribute.patternAccepts "192.168.3.1" = true ∧
    networkinterface.gatewaySchemaAttribute.patternAccepts "192.168.1.1" = true ∧
    networkinterface.netmaskSchemaAttribute.patternAccepts "255.255.255.0" = true :=
  ⟨(c14_dotted_digit_groups_accepted "192.168.3.1" ['1', '9', '2'] ['1', '6', '8'] ['3'] ['1']
      (by decide) (by decide) (by decide) (by decide) (by decide)).1,
   (c14_dotted_digit_groups_accepted "192.168.1.1" ['1', '9', '2'] ['1', '6', '8'] ['1'] ['1']
      (by decide) (by decide) (by decide) (by decide) (by decide)).2.1,
   (c14_dotted_digit_groups_accepted "255.255.255.0" ['2', '5', '5'] ['2', '5', '5']
      ['2', '5', '5'] ['0'] (by decide) (by decide) (by decide) (by decide) (by decide)).2.2⟩

/-- C15: the zone policies `forward`, `input` and `output` and the rule attribute `target`
carry the one list `zone.TypeValidators`, and each of the four accepts a string `s` if and
only if `s` is exactly `ACCEPT`, `REJECT` or `DROP`; `accept` in lower case is rejected. -/
theorem c15_type_validators_shared (cfg : Config) (s : String) :
    (zone.forwardSchemaAttribute.Validators = zone.TypeValidators ∧
      zone.inputSchemaAttribute.Validators = zone.TypeValidators ∧
      zone.outputSchemaAttribute.Validators = zone.TypeValidators ∧
      rule.targetSchemaAttribute.Validators = zone.TypeValidators) ∧
    (zone.forwardSchemaAttribute.validate cfg (.StringValue s) = true ↔
      s = "ACCEPT" ∨ s = "REJECT" ∨ s = "DROP") ∧
    (zone.inputSchemaAttribute.validate cfg (.StringValue s) = true ↔
      s = "ACCEPT" ∨ s = "REJECT" ∨ s = "DROP") ∧
    (zone.outputSchemaAttribute.validate cfg (.StringValue s) = true ↔
      s = "ACCEPT" ∨ s = "REJECT" ∨ s = "DROP") ∧
    (rule.targetSchemaAttribute.validate cfg (.StringValue s) = true ↔
      s = "ACCEPT" ∨ s = "REJECT" ∨ s = "DROP") ∧
    zone.forwardSchemaAttribute.validate cfg (.StringValue "accept") = false ∧
    zone.inputSchemaAttribute.validate cfg (.StringValue "accept") = false ∧
    zone.outputSchemaAttribute.validate cfg (.StringValue "accept") = false ∧
    rule.targetSchemaAttribute.validate cfg (.StringValue "accept") = false := by
  have key : ∀ t : String, Validator.acceptsAll zone.TypeValidators cfg (.StringValue t) = true ↔
      t = "ACCEPT" ∨ t = "REJECT" ∨ t = "DROP" := by
    intro t
    simp [Validator.acceptsAll, zone.TypeValidators, Validator.accepts, zone.typeAccept,
      zone.typeReject, zone.typeDrop]
  have hno : Validator.acceptsAll zone.TypeValidators cfg (.StringValue "accept") = false := by
    rw [Bool.eq_false_iff, Ne, key]
    decide
  exact ⟨⟨rfl, rfl, rfl, rfl⟩, key s, key s, key s, key s, hno, hno, hno, hno⟩

/-- C16: for every string `s`, the validator of the redirect attribute `target` accepts `s`
if and only if `s` is exactly `DNAT` or `SNAT`. -/
theorem c16_redirect_target_accepts_iff (cfg : Config) (s : String) :
    redirect.targetSchemaAttribute.validate cfg (.StringValue s) = true ↔
      s = "DNAT" ∨ s = "SNAT" := by
  simp [lucirpcglue.SchemaAttribute.validate, lucirpcglue.SchemaAttribute.Validators,
    redirect.targetSchemaAttribute, Validator.acceptsAll, Validator.accepts,
    redirect.targetDnat, redirect.targetSnat]

/-- C17: for every string `s`, the validator of the rule attribute `family` accepts `s` if
and only if `s` is exactly `ipv4` or `ipv6`; `any` is rejected. -/
theorem c17_rule_family_accepts_iff (cfg : Config) (s : String) :
    (rule.familySchemaAttribute.validate cfg (.StringValue s) = true ↔
      s = "ipv4" ∨ s = "ipv6") ∧
    rule.familySchemaAttribute.validate cfg (.StringValue "any") = false := by
  have key : ∀ t : String, rule.familySchemaAttribute.validate cfg (.StringValue t) = true ↔
      t = "ipv4" ∨ t = "ipv6" := by
    intro t
    simp [lucirpcglue.SchemaAttribute.validate, lucirpcglue.SchemaAttribute.Validators,
      rule.familySchemaAttribute, Validator.acceptsAll, Validator.accepts, rule.familyIpv4,
      rule.familyIpv6, or_comm]
  refine ⟨key s, ?_⟩
  rw [Bool.eq_false_iff, Ne, key]
  decide

/-- C18: for every string `s`, the `family` validator of the forwarding and that of the
redirect accept `s` if and only if `s` is exactly `ipv4`, `ipv6` or `any`; the two accept the
same strings, every string the rule `family` validator accepts is among them, and `any` is
among them while the rule validator rejects it. -/
theorem c18_family_accepts_iff (cfg : Config) (s : String) :
    (forwarding.familySchemaAttribute.validate cfg (.StringValue s) = true ↔
      s = "ipv4" ∨ s = "ipv6" ∨ s = "any") ∧
    (redirect.familySchemaAttribute.validate cfg (.StringValue s) = true ↔
      s = "ipv4" ∨ s = "ipv6" ∨ s = "any") ∧
    forwarding.familySchemaAttribute.validate cfg (.StringValue s) =
      redirect.familySchemaAttribute.validate cfg (.StringValue s) ∧
    (rule.familySchemaAttribute.validate cfg (.StringValue s) = true →
      redirect.familySchemaAttribute.validate cfg (.StringValue s) = true) ∧
    redirect.familySchemaAttribute.validate cfg (.StringValue "any") = true ∧
    forwarding.familySchemaAttribute.validate cfg (.StringValue "any") = true ∧
    rule.familySchemaAttribute.validate cfg (.StringValue "any") = false := by
  have hf : ∀ t : String,
      forwarding.familySchemaAttribute.validate cfg (.StringValue t) = true ↔
        t = "ipv4" ∨ t = "ipv6" ∨ t = "any" := by
    intro t
    simp [lucirpcglue.SchemaAttribute.validate, lucirpcglue.SchemaAttribute.Validators,
      forwarding.familySchemaAttribute, Validator.acceptsAll, Validator.accepts,
      forwarding.familyIpv4, forwarding.familyIpv6, forwarding.familyAny]
    tauto
  have hr : ∀ t : String,
      redirect.familySchemaAttribute.validate cfg (.StringValue t) = true ↔
        t = "ipv4" ∨ t = "ipv6" ∨ t = "any" := by
    intro t
    simp [lucirpcglue.SchemaAttribute.validate, lucirpcglue.SchemaAttribute.Validators,
      redirect.familySchemaAttribute, Validator.acceptsAll, Validator.accepts,
      redirect.familyIpv4, redirect.familyIpv6, redirect.familyAny]
    tauto
  have hrule : ∀ t : String,
      rule.familySchemaAttribute.validate cfg (.StringValue t) = true ↔
        t = "ipv4" ∨ t = "ipv6" := by
    intro t
    simp [lucirpcglue.SchemaAttribute.validate, lucirpcglue.SchemaAttribute.Validators,
      rule.familySchemaAttribute, Validator.acceptsAll, Validator.accepts, rule.familyIpv4,
      rule.familyIpv6, or_comm]
  refine ⟨hf s, hr s, ?_, ?_, ?_, ?_, ?_⟩
  · rw [Bool.eq_iff_iff, hf, hr]
  · intro h
    rcases (hrule s).mp h with h | h
    · exact (hr s).mpr (Or.inl h)
    · exact (hr s).mpr (Or.inr (Or.inl h))
  · exact (hr "any").mpr (Or.inr (Or.inr rfl))
  · exact (hf "any").mpr (Or.inr (Or.inr rfl))
  · rw [Bool.eq_false_iff, Ne, hrule]
    decide

/-- C18, at the family `ipv4`, which the rule validator accepts. -/
theorem c18_family_accepts_iff_witness :
    rule.familySchemaAttribute.validate [] (.StringValue "ipv4") = true ∧
    redirect.familySchemaAttribute.validate [] (.StringValue "ipv4") = true :=
  ⟨by decide, (c18_family_accepts_iff [] "ipv4").2.2.2.1 (by decide)⟩

/-- C19: for every string `s`, the enumeration check of `reqaddress` accepts `s` if and only
if `s` is `force`, `try` or `none`, and the enumeration check of `reqprefix` accepts `s` if
and only if `s` is `auto`; `no` and the prefix lengths `0` and `64` are rejected. -/
theorem c19_dhcpv6_request_options (s : String) :
    (networkinterface.requestingAddressSchemaAttribute.enumAccepts s = true ↔
      s = "force" ∨ s = "try" ∨ s = "none") ∧
    (networkinterface.requestingPrefixSchemaAttribute.enumAccepts s = true ↔ s = "auto") ∧
    networkinterface.requestingPrefixSchemaAttribute.enumAccepts "no" = false ∧
    networkinterface.requestingPrefixSchemaAttribute.enumAccepts "0" = false ∧
    networkinterface.requestingPrefixSchemaAttribute.enumAccepts "64" = false := by
  refine ⟨?_, ?_, by decide, by decide, by decide⟩
  · simp [lucirpcglue.SchemaAttribute.enumAccepts, lucirpcglue.SchemaAttribute.Validators,
      networkinterface.requestingAddressSchemaAttribute, Validator.acceptsAll,
      Validator.isOneOf, Validator.accepts, networkinterface.requestingAddressForce,
      networkinterface.requestingAddressNone, networkinterface.requestingAddressTry]
    tauto
  · simp [lucirpcglue.SchemaAttribute.enumAccepts, lucirpcglue.SchemaAttribute.Validators,
      networkinterface.requestingPrefixSchemaAttribute, Validator.acceptsAll,
      Validator.isOneOf, Validator.accepts, networkinterface.requestingPrefixAuto]

/-- C20: each of the six model records has a string field `Id` tagged `id`; each of the six
tables has under the `id` key the entry built from the `modelGetId` and `modelSetId` of its
package; `modelGetId` returns that field and `modelSetId` replaces that field and no other;
and `modelGetId` is the identifier getter given to `NewDataSource` and to `NewResource`. -/
theorem c20_records_carry_identifier :
    (lucirpcglue.IdentifierWired forwarding.modelFields forwarding.schemaAttributes
        forwarding.modelGetId forwarding.modelSetId forwarding.NewDataSource
        forwarding.NewResource ∧
      (∀ m, forwarding.modelGetId m = m.Id) ∧
      (∀ m v, forwarding.modelSetId m v = { m with Id := v })) ∧
    (lucirpcglue.IdentifierWired redirect.modelFields redirect.schemaAttributes
        redirect.modelGetId redirect.modelSetId redirect.NewDataSource redirect.NewResource ∧
      (∀ m, redirect.modelGetId m = m.Id) ∧
      (∀ m v, redirect.modelSetId m v = { m with Id := v })) ∧
    (lucirpcglue.IdentifierWired rule.modelFields rule.schemaAttributes
        rule.modelGetId rule.modelSetId rule.NewDataSource rule.NewResource ∧
      (∀ m, rule.modelGetId m = m.Id) ∧
      (∀ m v, rule.modelSetId m v = { m with Id := v })) ∧
    (lucirpcglue.IdentifierWired zone.modelFields zone.schemaAttributes
        zone.modelGetId zone.modelSetId zone.NewDataSource zone.NewResource ∧
      (∀ m, zone.modelGetId m = m.Id) ∧
      (∀ m v, zone.modelSetId m v = { m with Id := v })) ∧
    (lucirpcglue.IdentifierWired bridgevlan.modelFields bridgevlan.schemaAttributes
        bridgevlan.modelGetId bridgevlan.modelSetId bridgevlan.NewDataSource
        bridgevlan.NewResource ∧
      (∀ m, bridgevlan.modelGetId m = m.Id) ∧
      (∀ m v, bridgevlan.modelSetId m v = { m with Id := v })) ∧
    (lucirpcglue.IdentifierWired networkinterface.modelFields
        networkinterface.schemaAttributes networkinterface.modelGetId
        networkinterface.modelSetId networkinterface.NewDataSource
        networkinterface.NewResource ∧
      (∀ m, networkinterface.modelGetId m = m.Id) ∧
      (∀ m v, networkinterface.modelSetId m v = { m with Id := v })) := by
  refine ⟨⟨⟨by decide, by decide, rfl, rfl, rfl⟩, fun _ => rfl, fun _ _ => rfl⟩,
    ⟨⟨by decide, by decide, rfl, rfl, rfl⟩, fun _ => rfl, fun _ _ => rfl⟩,
    ⟨⟨by decide, by decide, rfl, rfl, rfl⟩, fun _ => rfl, fun _ _ => rfl⟩,
    ⟨⟨by decide, by decide, rfl, rfl, rfl⟩, fun _ => rfl, fun _ _ => rfl⟩,
    ⟨⟨by decide, by decide, rfl, rfl, rfl⟩, fun _ => rfl, fun _ _ => rfl⟩,
    ⟨⟨by decide, by decide, rfl, rfl, rfl⟩, fun _ => rfl, fun _ _ => rfl⟩⟩

/-- C21 (the code at its own tests): the data-source tests of zone, rule, redirect and
forwarding create their section under the config `firwall`, while the packages pass
`firewall` to `NewDataSource`, so the two (config, type) pairs differ; only for bridgevlan
are they equal (`network`, `bridge-vlan`). -/
theorem c21_data_source_section_pairs :
    (zone.NewDataSource.sectionPair = ("firewall", "zone") ∧
      zone.TestDataSourceAcceptance.sectionPair = ("firwall", "zone") ∧
      zone.NewDataSource.sectionPair ≠ zone.TestDataSourceAcceptance.sectionPair) ∧
    (rule.NewDataSource.sectionPair = ("firewall", "rule") ∧
      rule.TestDataSourceAcceptance.sectionPair = ("firwall", "rule") ∧
      rule.NewDataSource.sectionPair ≠ rule.TestDataSourceAcceptance.sectionPair) ∧
    (redirect.NewDataSource.sectionPair = ("firewall", "redirect") ∧
      redirect.TestDataSourceAcceptance.sectionPair = ("firwall", "redirect") ∧
      redirect.NewDataSource.sectionPair ≠ redirect.TestDataSourceAcceptance.sectionPair) ∧
    (forwarding.NewDataSource.sectionPair = ("firewall", "forwarding") ∧
      forwarding.TestDataSourceAcceptance.sectionPair = ("firwall", "forwarding") ∧
      forwarding.NewDataSource.sectionPair ≠ forwarding.TestDataSourceAcceptance.sectionPair) ∧
    bridgevlan.NewDataSource.sectionPair = bridgevlan.TestDataSourceAcceptance.sectionPair := by
  decide
